import Mathlib

/-!
# OmniIngest ABDM — verification of the ingestion-and-compliance pipeline

Shallow embedding of the Python sources of the OmniIngest repository:

* `src/compliance_engine.py` — `ComplianceEngine.evaluate_record`,
  `ComplianceEngine.apply_purge`, `ComplianceEngine.validate_notice_id`,
  `ComplianceEngine.hash_id` (identical in `Phase_0.3/src/compliance_engine.py`);
* `src/ingress.py` and the repository-root `ingress.py` — the two polars
  status/reason cascades of `run_ingress`;
* `Phase_0.2/src/universal_adapter.py` — `calculate_similarity`,
  `suggest_canonical_field`, `FIELD_MAPPING`;
* `Phase_0.3/src/compliance_engine.py` — `verify_fhir_structure`,
  `get_fhir_bundle`.

Modelling conventions: Python dict rows become functions `String → Option String`
(`none` = missing/`None`); `pandas.to_datetime` is abstracted as a parameter
`parseDate : String → Option Int` over integer day numbers (its `try/except`
collapses to `Option`); floats become `ℚ`; character classes of the regexes are
read over ASCII data (all data handled by the pipeline is ASCII); logging side
effects (`audit_transaction`, `safe_log`, `print`) are dropped.
-/

set_option maxRecDepth 8000

/-- A loosely typed record row (a Python dict with string keys whose values are
strings or `None`), as consumed by `ComplianceEngine.apply_purge`. -/
def Row : Type := String → Option String

/-- Functional update of one field of a row (Python `row[key] = value`). -/
def Row.set (r : Row) (k v : String) : Row :=
  fun k2 => if k2 = k then some v else r k2

/-- Build a row from an association list (used for concrete test rows). -/
def Row.ofList (l : List (String × String)) : Row :=
  fun k => (l.find? (fun p => p.1 == k)).map (fun p => p.2)

/-- Python `str(x)` on an optional string: `str(None) = "None"`. -/
def pyStr : Option String → String
  | none => "None"
  | some s => s

/-- Python list/string containment helper: `a` is a prefix of `b`. -/
def listIsPrefixOf : List Char → List Char → Bool
  | [], _ => true
  | _ :: _, [] => false
  | x :: xs, y :: ys => x == y && listIsPrefixOf xs ys

/-- Python `a in b` on strings: `a` occurs as a contiguous substring of `b`
(the empty string occurs in every string). -/
def listIsSubOf (a : List Char) : List Char → Bool
  | [] => a.isEmpty
  | y :: ys => listIsPrefixOf a (y :: ys) || listIsSubOf a ys

/-- Python `a in b` on strings. -/
def substrOf (a b : String) : Bool := listIsSubOf a.data b.data

/-- Python `str.lower()` (ASCII: the pipeline's column names and aliases). -/
def pyLower (s : String) : String := ⟨s.data.map Char.toLower⟩

/-- Python `str.strip()`: remove leading and trailing whitespace. -/
def pyStrip (s : String) : String :=
  ⟨((s.data.dropWhile Char.isWhitespace).reverse.dropWhile Char.isWhitespace).reverse⟩

/-- Python `str.replace(old, new)` for the single-character patterns used by
the normalizer (`' ' → '_'` and `'-' → '_'`). -/
def pyReplaceChar (a b : Char) (s : String) : String :=
  ⟨s.data.map (fun c => if c == a then b else c)⟩

/-- Python `str.split(sep)` for a single-character separator: the empty
string splits to one empty segment, and empty segments between adjacent
separators are kept. -/
def splitOnChar (sep : Char) : List Char → List (List Char)
  | [] => [[]]
  | c :: rest =>
    let r := splitOnChar sep rest
    if c == sep then [] :: r
    else match r with
      | h :: t => (c :: h) :: t
      | [] => [[c]]

/-- Python `str.upper()` (ASCII: the pipeline's status strings). -/
def pyUpper (s : String) : String := ⟨s.data.map Char.toUpper⟩

/-- Python `str.startswith(p)` / polars `str.starts_with`. -/
def pyStartsWith (p s : String) : Bool := listIsPrefixOf p.data s.data

/-- `ComplianceEngine.evaluate_record` (`src/compliance_engine.py`).
Returns the `(Status, Reason)` pair for a record.  `parseDate` abstracts
`pd.to_datetime` and `threshold` is `self.threshold_date`; an unparseable or
falsy (`None`/empty) notice date is never expired, exactly as the
`try/except` in the source. -/
def evaluate_record (parseDate : String → Option Int) (threshold : Int)
    (consent_status notice_date data_purpose : Option String) : String × String :=
  let consent := pyUpper (pyStr consent_status)
  let purpose : String := match data_purpose with
    | none => "UNKNOWN"
    | some "" => "UNKNOWN"
    | some s => s
  let authorized_purposes := ["Consultation", "Treatment", "Audit", "Emergency Care"]
  let is_unauthorized : Bool := !(authorized_purposes.contains purpose) && purpose != "UNKNOWN"
  let is_expired : Bool := match notice_date with
    | none => false
    | some s =>
      s != "" && (match parseDate s with
        | some d => decide (d < threshold)
        | none => false)
  if consent = "REVOKED" then ("PURGED", "CONSENT_REVOKED")
  else if is_expired then ("PURGED", "NOTICE_EXPIRED")
  else if is_unauthorized then ("PURGED", "UNAUTHORIZED_PURPOSE")
  else ("PROCESSED", "N/A")

/-- `ComplianceEngine.apply_purge` (`src/compliance_engine.py`): wipes the PII
fields of a row classified `PURGED` and tags `_Ingest_Status`; otherwise only
tags `_Ingest_Status`.  The audit-log call is a logging side effect and is not
part of the returned row. -/
def apply_purge (parseDate : String → Option Int) (threshold : Int) (row : Row) : Row :=
  let sr := evaluate_record parseDate threshold
    (row "Consent_Status") (row "Notice_Date") (row "Data_Purpose")
  if sr.1 = "PURGED" then
    ((((row.set "Clinical_Payload" "PURGED_DPDP_RULE_8_ERASURE").set
        "Patient_Name" "REDACTED").set
        "ABHA_ID" "REDACTED").set
        "Consent_Token" "PURGED").set
        "_Ingest_Status" ("PURGED_" ++ sr.2)
  else
    row.set "_Ingest_Status"
      (if row "Consent_Status" = some "ACTIVE" ∨ row "Consent_Status" = some "GRANTED"
        then "SUCCESS_LINKED" else "QUARANTINED_PENDING")

/-- Tail of the notice-id regex `^N-2026-[A-Z]{3,4}-v\d+\.\d+$` after the
literal `N-2026-`: an upper-case run of length 3 or 4, then `-v`, digits, a
dot, digits, end of string (Python `$` also matches just before one final
newline). -/
def noticeTailMatch (l : List Char) : Bool :=
  let up := l.takeWhile (fun c => 'A' ≤ c && c ≤ 'Z')
  let rest := l.drop up.length
  (up.length == 3 || up.length == 4) &&
  (match rest with
    | '-' :: 'v' :: r2 =>
      let d1 := r2.takeWhile Char.isDigit
      let r3 := r2.drop d1.length
      decide (1 ≤ d1.length) &&
      (match r3 with
        | '.' :: r4 =>
          let d2 := r4.takeWhile Char.isDigit
          let r5 := r4.drop d2.length
          decide (1 ≤ d2.length) && (r5 == [] || r5 == ['\n'])
        | _ => false)
    | _ => false)

/-- `re.match` of `self.notice_regex = r'^N-2026-[A-Z]{3,4}-v\d+\.\d+$'`. -/
def notice_regex_match (s : String) : Bool :=
  match s.data with
  | 'N' :: '-' :: '2' :: '0' :: '2' :: '6' :: '-' :: rest => noticeTailMatch rest
  | _ => false

/-- `ComplianceEngine.validate_notice_id` (`src/compliance_engine.py`): a falsy
(`None`/empty) id fails, otherwise the hardcoded 2026 regex decides. -/
def validate_notice_id (notice_id : Option String) : Bool :=
  match notice_id with
  | none => false
  | some s => if s = "" then false else notice_regex_match s

/-- The 14-digit hyphenated ABHA pattern `^[0-9]{2}-[0-9]{4}-[0-9]{4}-[0-9]{4}$`. -/
def abha14_match (s : String) : Bool :=
  match s.data with
  | [a, b, '-', c, d, e, f, '-', g, h, i, j, '-', k, l, m, n] =>
    [a, b, c, d, e, f, g, h, i, j, k, l, m, n].all Char.isDigit
  | _ => false

/-- Characters of the sandbox-address class `[a-zA-Z0-9.]`. -/
def sbxChar (c : Char) : Bool :=
  ('a' ≤ c && c ≤ 'z') || ('A' ≤ c && c ≤ 'Z') || c.isDigit || c == '.'

/-- The sandbox-address pattern `^[a-zA-Z0-9.]+@sbx$` (full match). -/
def abha_sandbox_match (s : String) : Bool :=
  let l := s.data
  let k := l.length
  decide (5 ≤ k) && (l.drop (k - 4) == ['@', 's', 'b', 'x']) && (l.take (k - 4)).all sbxChar

/-- ABHA validity regex of `src/ingress.py`:
`^([0-9]{2}-[0-9]{4}-[0-9]{4}-[0-9]{4}|[a-zA-Z0-9.]+@sbx)$`. -/
def srcAbhaValid (s : String) : Bool := abha14_match s || abha_sandbox_match s

/-- `Ingest_Status` cascade of `run_ingress` in `src/ingress.py` (the module
imported by the Phase 0.3 app).  `nDate` is total because the source runs
`.str.to_date(strict=False).fill_null(datetime.now())` before this cascade.
Null propagation of polars `when` chains: a null condition is skipped. -/
def srcIngressStatus (threshold : Int) (abha consent : Option String)
    (nDate : Int) (nId : Option String) : String :=
  let missingOrMalformed : Bool := match abha with
    | none => true
    | some s => s == "" || !srcAbhaValid s
  if missingOrMalformed then "QUARANTINED"
  else if consent == some "REVOKED" then "PURGED"
  else if nDate < threshold then "PURGED"
  else if (match nId with | some s => pyStartsWith "N-2025" s | none => false) then "PURGED"
  else "PROCESSED"

/-- `Status_Reason` cascade of `run_ingress` in `src/ingress.py`.  Note the
source has no branch for the `N-2025` notice-id purge here, so such records
fall through to `"N/A"`. -/
def srcIngressReason (threshold : Int) (abha consent : Option String)
    (nDate : Int) (nId : Option String) : String :=
  let missing : Bool := match abha with
    | none => true
    | some s => s == ""
  if missing then "MISSING_ABHA"
  else if (match abha with | some s => !srcAbhaValid s | none => false) then "MALFORMED_ID"
  else if consent == some "REVOKED" then "CONSENT_REVOKED"
  else if nDate < threshold then "NOTICE_EXPIRED"
  else "N/A"

/-- `Ingest_Status` cascade of `run_ingress` in the repository-root
`ingress.py` (strict 14-digit ABHA pattern, no sandbox alternative; the date
column is not null-filled there, hence `Option Int`). -/
def rootIngressStatus (threshold : Int) (abha consent : Option String)
    (nDate : Option Int) (nId : Option String) : String :=
  let missing : Bool := match abha with
    | none => true
    | some s => s == ""
  if missing then "QUARANTINED"
  else if (match abha with | some s => !abha14_match s | none => false) then "QUARANTINED"
  else if consent == some "REVOKED" then "PURGED"
  else if (match nDate with | some d => decide (d < threshold) | none => false) then "PURGED"
  else if (match nId with | some s => pyStartsWith "N-2025" s | none => false) then "PURGED"
  else "PROCESSED"

/-- `Status_Reason` cascade of `run_ingress` in the repository-root
`ingress.py`, including its `OUTDATED_NOTICE_ERROR` branch. -/
def rootIngressReason (threshold : Int) (abha consent : Option String)
    (nDate : Option Int) (nId : Option String) : String :=
  let missing : Bool := match abha with
    | none => true
    | some s => s == ""
  if missing then "MISSING_ABHA"
  else if (match abha with | some s => !abha14_match s | none => false) then "MALFORMED_ID"
  else if consent == some "REVOKED" then "CONSENT_REVOKED"
  else if (match nDate with | some d => decide (d < threshold) | none => false) then "NOTICE_EXPIRED"
  else if (match nId with | some s => pyStartsWith "N-2025" s | none => false) then "OUTDATED_NOTICE_ERROR"
  else "N/A"

/-! ## SHA-256 (the `hashlib.sha256` used by `ComplianceEngine.hash_id`)

A byte-level implementation over `Nat` with explicit `% 2^32` reductions,
following FIPS 180-4. -/

/-- Right rotation of a 32-bit word. -/
def rotr32 (n x : Nat) : Nat := ((x >>> n) ||| (x <<< (32 - n))) % 4294967296

/-- 32-bit bitwise complement. -/
def not32 (x : Nat) : Nat := x ^^^ 4294967295

/-- SHA-256 `Ch` function. -/
def shaCh (x y z : Nat) : Nat := (x &&& y) ^^^ (not32 x &&& z)

/-- SHA-256 `Maj` function. -/
def shaMaj (x y z : Nat) : Nat := (x &&& y) ^^^ (x &&& z) ^^^ (y &&& z)

/-- SHA-256 big Sigma-0. -/
def shaS0 (x : Nat) : Nat := rotr32 2 x ^^^ rotr32 13 x ^^^ rotr32 22 x

/-- SHA-256 big Sigma-1. -/
def shaS1 (x : Nat) : Nat := rotr32 6 x ^^^ rotr32 11 x ^^^ rotr32 25 x

/-- SHA-256 small sigma-0. -/
def shas0 (x : Nat) : Nat := rotr32 7 x ^^^ rotr32 18 x ^^^ (x >>> 3)

/-- SHA-256 small sigma-1. -/
def shas1 (x : Nat) : Nat := rotr32 17 x ^^^ rotr32 19 x ^^^ (x >>> 10)

/-- The 64 SHA-256 round constants (FIPS 180-4, written in decimal). -/
def shaK : List Nat := [
  1116352408, 1899447441, 3049323471, 3921009573, 961987163, 1508970993,
  2453635748, 2870763221, 3624381080, 310598401, 607225278, 1426881987,
  1925078388, 2162078206, 2614888103, 3248222580, 3835390401, 4022224774,
  264347078, 604807628, 770255983, 1249150122, 1555081692, 1996064986,
  2554220882, 2821834349, 2952996808, 3210313671, 3336571891, 3584528711,
  113926993, 338241895, 666307205, 773529912, 1294757372, 1396182291,
  1695183700, 1986661051, 2177026350, 2456956037, 2730485921, 2820302411,
  3259730800, 3345764771, 3516065817, 3600352804, 4094571909, 275423344,
  430227734, 506948616, 659060556, 883997877, 958139571, 1322822218,
  1537002063, 1747873779, 1955562222, 2024104815, 2227730452, 2361852424,
  2428436474, 2756734187, 3204031479, 3329325298]

/-- The SHA-256 initial hash value (FIPS 180-4, written in decimal). -/
def shaH0 : List Nat :=
  [1779033703, 3144134277, 1013904242, 2773480762,
   1359893119, 2600822924, 528734635, 1541459225]

/-- A `Nat` as 8 big-endian bytes (the length field of SHA-256 padding). -/
def be8 (n : Nat) : List Nat :=
  [(n >>> 56) % 256, (n >>> 48) % 256, (n >>> 40) % 256, (n >>> 32) % 256,
   (n >>> 24) % 256, (n >>> 16) % 256, (n >>> 8) % 256, n % 256]

/-- A 32-bit word as 4 big-endian bytes. -/
def be4 (n : Nat) : List Nat :=
  [(n >>> 24) % 256, (n >>> 16) % 256, (n >>> 8) % 256, n % 256]

/-- SHA-256 message padding: `0x80`, zeros to 56 mod 64, 64-bit bit length. -/
def shaPad (msg : List Nat) : List Nat :=
  msg ++ [0x80] ++ List.replicate ((119 - msg.length % 64) % 64) 0 ++ be8 (msg.length * 8)

/-- Big-endian 4-byte grouping of a byte list into 32-bit words. -/
def bytesToWords : List Nat → List Nat
  | a :: b :: c :: d :: rest => ((a <<< 24) ||| (b <<< 16) ||| (c <<< 8) ||| d) :: bytesToWords rest
  | _ => []

/-- Extend the 16 message-schedule words to 64. -/
def shaExtend (w : List Nat) : List Nat :=
  (List.range 48).foldl (fun acc _ =>
    let n := acc.length
    let x := (acc.getD (n - 16) 0 + shas0 (acc.getD (n - 15) 0) +
              acc.getD (n - 7) 0 + shas1 (acc.getD (n - 2) 0)) % 4294967296
    acc ++ [x]) w

/-- One SHA-256 compression step over the running state `[a,b,c,d,e,f,g,h]`. -/
def shaRound (st : List Nat) (wk : Nat × Nat) : List Nat :=
  match st with
  | [a, b, c, d, e, f, g, h] =>
    let t1 := (h + shaS1 e + shaCh e f g + wk.2 + wk.1) % 4294967296
    let t2 := (shaS0 a + shaMaj a b c) % 4294967296
    [(t1 + t2) % 4294967296, a, b, c, (d + t1) % 4294967296, e, f, g]
  | other => other

/-- Compress one 64-byte chunk into the hash state. -/
def shaCompress (hs : List Nat) (chunk : List Nat) : List Nat :=
  let w := shaExtend (bytesToWords chunk)
  let st := (w.zip shaK).foldl shaRound hs
  (hs.zip st).map (fun p => (p.1 + p.2) % 4294967296)

/-- Split a byte list into 64-byte chunks (structural recursion on a fuel
bound so the definition reduces inside the kernel). -/
def chunks64Go : Nat → List Nat → List (List Nat)
  | 0, _ => []
  | _, [] => []
  | fuel + 1, x :: xs => ((x :: xs).take 64) :: chunks64Go fuel (xs.drop 63)

/-- Split a byte list into 64-byte chunks. -/
def chunks64 (l : List Nat) : List (List Nat) := chunks64Go l.length l

/-- SHA-256 of a byte sequence, as 32 digest bytes. -/
def sha256Bytes (msg : List Nat) : List Nat :=
  (((chunks64 (shaPad msg)).foldl shaCompress shaH0).map be4).flatten

/-- UTF-8 encoding of one character (Python `str.encode()`). -/
def charUtf8 (c : Char) : List Nat :=
  let n := c.toNat
  if n < 128 then [n]
  else if n < 2048 then [192 + n / 64, 128 + n % 64]
  else if n < 65536 then [224 + n / 4096, 128 + (n / 64) % 64, 128 + n % 64]
  else [240 + n / 262144, 128 + (n / 4096) % 64, 128 + (n / 64) % 64, 128 + n % 64]

/-- UTF-8 encoding of a string. -/
def utf8Bytes (s : String) : List Nat := (s.data.map charUtf8).flatten

/-- Lower-case hexadecimal digit characters. -/
def hexChar (n : Nat) : Char := "0123456789abcdef".data.getD n '0'

/-- A byte as two lower-case hex characters. -/
def byteHex (b : Nat) : List Char := [hexChar (b / 16), hexChar (b % 16)]

/-- `hashlib.sha256(s.encode()).hexdigest()`. -/
def sha256hex (s : String) : String := ⟨((sha256Bytes (utf8Bytes s)).map byteHex).flatten⟩

/-- `ComplianceEngine.hash_id` (`src/compliance_engine.py`): a falsy identifier
or one of the sentinels maps to `"****"`; otherwise the first 8 hex characters
of the SHA-256 digest followed by `"****"`. -/
def hash_id (identifier : Option String) : String :=
  match identifier with
  | none => "****"
  | some s =>
    if s = "" || s = "REDACTED" || s = "UNKNOWN" || s = "None" then "****"
    else (⟨(sha256hex s).data.take 8⟩ : String) ++ "****"


/-! ## Field normalizer (`Phase_0.2/src/universal_adapter.py`) -/

/-- Rational addition written through `mkRat` so it reduces inside the kernel
(the `+, *, /` of `ℚ` are `@[irreducible]`); proved equal to `+` below. -/
def qadd (a b : ℚ) : ℚ := mkRat (a.num * b.den + b.num * a.den) (a.den * b.den)

/-- Rational multiplication through `mkRat`; proved equal to `*` below. -/
def qmul (a b : ℚ) : ℚ := mkRat (a.num * b.num) (a.den * b.den)

/-- `calculate_similarity` (`Phase_0.2/src/universal_adapter.py`): 1 on equal
(lower-cased, stripped) strings, 0.8 on a substring match, otherwise the even
blend `char_similarity * 0.5 + word_similarity * 0.5` of character-set and
underscore-word-set Jaccard overlaps.  Python sets become `Finset`s, floats
become `ℚ` (written via `mkRat`/`qmul`/`qadd`, which are proved below to agree
with the field operations of `ℚ`). -/
def calculate_similarity (str1 str2 : String) : ℚ :=
  let s1 := pyStrip (pyLower str1)
  let s2 := pyStrip (pyLower str2)
  if s1 = s2 then 1
  else if substrOf s1 s2 || substrOf s2 s1 then mkRat 4 5
  else
    let c1 := s1.data.toFinset
    let c2 := s2.data.toFinset
    let char_similarity : ℚ :=
      if (c1 ∪ c2).card = 0 then 0 else mkRat ((c1 ∩ c2).card) ((c1 ∪ c2).card)
    let w1 := (splitOnChar '_' s1.data).toFinset
    let w2 := (splitOnChar '_' s2.data).toFinset
    let word_similarity : ℚ :=
      if (w1 ∪ w2).card = 0 then 0 else mkRat ((w1 ∩ w2).card) ((w1 ∪ w2).card)
    qadd (qmul char_similarity (mkRat 1 2)) (qmul word_similarity (mkRat 1 2))

/-- The alias table `FIELD_MAPPING` of `Phase_0.2/src/universal_adapter.py`,
in Python dict order (first-occurrence position, last value, for the handful
of duplicate literal keys). -/
def FIELD_MAPPING : List (String × String) := [
  ("patient_name", "Patient_Name"), ("patient name", "Patient_Name"), ("name", "Patient_Name"),
  ("patient", "Patient_Name"), ("full_name", "Patient_Name"), ("patient_full_name", "Patient_Name"),
  ("patientname", "Patient_Name"), ("pt_name", "Patient_Name"), ("pt name", "Patient_Name"),
  ("p_name", "Patient_Name"), ("pname", "Patient_Name"), ("patient_name_full", "Patient_Name"),
  ("fullname", "Patient_Name"), ("full name", "Patient_Name"), ("patient_fullname", "Patient_Name"),
  ("name_of_patient", "Patient_Name"), ("patient_name_first_last", "Patient_Name"), ("first_name_last_name", "Patient_Name"),
  ("firstname_lastname", "Patient_Name"), ("patient_first_last", "Patient_Name"), ("pt_full_name", "Patient_Name"),
  ("name_full", "Patient_Name"), ("patient_name_complete", "Patient_Name"), ("complete_name", "Patient_Name"),
  ("patient_complete_name", "Patient_Name"), ("beneficiary_name", "Patient_Name"), ("beneficiary name", "Patient_Name"),
  ("member_name", "Patient_Name"), ("member name", "Patient_Name"), ("insured_name", "Patient_Name"),
  ("insured name", "Patient_Name"), ("subscriber_name", "Patient_Name"), ("subscriber name", "Patient_Name"),
  ("client_name", "Patient_Name"), ("client name", "Patient_Name"), ("customer_name", "Patient_Name"),
  ("customer name", "Patient_Name"), ("person_name", "Patient_Name"), ("person name", "Patient_Name"),
  ("individual_name", "Patient_Name"), ("individual name", "Patient_Name"), ("name_of_beneficiary", "Patient_Name"),
  ("name_of_member", "Patient_Name"), ("name_of_insured", "Patient_Name"), ("name_of_subscriber", "Patient_Name"),
  ("name_of_client", "Patient_Name"), ("name_of_customer", "Patient_Name"), ("name_of_person", "Patient_Name"),
  ("name_of_individual", "Patient_Name"), ("patient_firstname", "Patient_Name"), ("patient_lastname", "Patient_Name"),
  ("firstname", "Patient_Name"), ("lastname", "Patient_Name"), ("first_name", "Patient_Name"),
  ("last_name", "Patient_Name"), ("abha_id", "ABHA_ID"), ("abha id", "ABHA_ID"),
  ("abha", "ABHA_ID"), ("health_id", "ABHA_ID"), ("healthid", "ABHA_ID"),
  ("health_id_number", "ABHA_ID"), ("abha_number", "ABHA_ID"), ("abhaid", "ABHA_ID"),
  ("abha number", "ABHA_ID"), ("healthid_number", "ABHA_ID"), ("health id number", "ABHA_ID"),
  ("health_id_no", "ABHA_ID"), ("health id no", "ABHA_ID"), ("healthid_no", "ABHA_ID"),
  ("abha_id_no", "ABHA_ID"), ("abha id no", "ABHA_ID"), ("abha_no", "ABHA_ID"),
  ("abha no", "ABHA_ID"), ("health_id_code", "ABHA_ID"), ("health id code", "ABHA_ID"),
  ("abha_code", "ABHA_ID"), ("abha code", "ABHA_ID"), ("healthid_code", "ABHA_ID"),
  ("health_id_identifier", "ABHA_ID"), ("health id identifier", "ABHA_ID"), ("abha_identifier", "ABHA_ID"),
  ("abha identifier", "ABHA_ID"), ("health_identifier", "ABHA_ID"), ("health identifier", "ABHA_ID"),
  ("healthid_identifier", "ABHA_ID"), ("ayushman_bharat_id", "ABHA_ID"), ("ayushman bharat id", "ABHA_ID"),
  ("ayushmanbharat_id", "ABHA_ID"), ("ayushman_bharat_number", "ABHA_ID"), ("ayushman bharat number", "ABHA_ID"),
  ("national_health_id", "ABHA_ID"), ("national health id", "ABHA_ID"), ("nationalhealthid", "ABHA_ID"),
  ("nhi", "ABHA_ID"), ("nhi_id", "ABHA_ID"), ("nhi number", "ABHA_ID"),
  ("nhi_number", "ABHA_ID"), ("unique_health_id", "ABHA_ID"), ("unique health id", "ABHA_ID"),
  ("uhid", "ABHA_ID"), ("uhid_number", "ABHA_ID"), ("uhid number", "ABHA_ID"),
  ("health_card_number", "ABHA_ID"), ("health card number", "ABHA_ID"), ("healthcard_number", "ABHA_ID"),
  ("health_card_no", "ABHA_ID"), ("health card no", "ABHA_ID"), ("healthcard_no", "ABHA_ID"),
  ("health_card_id", "ABHA_ID"), ("health card id", "ABHA_ID"), ("healthcard_id", "ABHA_ID"),
  ("medical_record_id", "ABHA_ID"), ("medical record id", "ABHA_ID"), ("medicalrecord_id", "ABHA_ID"),
  ("mrn", "ABHA_ID"), ("mrn_id", "ABHA_ID"), ("mrn number", "ABHA_ID"),
  ("mrn_number", "ABHA_ID"), ("patient_id", "ABHA_ID"), ("patient id", "ABHA_ID"),
  ("patientid", "ABHA_ID"), ("pt_id", "ABHA_ID"), ("pt id", "ABHA_ID"),
  ("ptid", "ABHA_ID"), ("patient_identifier", "ABHA_ID"), ("patient identifier", "ABHA_ID"),
  ("patientidentifier", "ABHA_ID"), ("beneficiary_id", "ABHA_ID"), ("beneficiary id", "ABHA_ID"),
  ("beneficiaryid", "ABHA_ID"), ("member_id", "ABHA_ID"), ("member id", "ABHA_ID"),
  ("memberid", "ABHA_ID"), ("insured_id", "ABHA_ID"), ("insured id", "ABHA_ID"),
  ("insuredid", "ABHA_ID"), ("subscriber_id", "ABHA_ID"), ("subscriber id", "ABHA_ID"),
  ("subscriberid", "ABHA_ID"), ("client_id", "ABHA_ID"), ("client id", "ABHA_ID"),
  ("clientid", "ABHA_ID"), ("customer_id", "ABHA_ID"), ("customer id", "ABHA_ID"),
  ("customerid", "ABHA_ID"), ("clinical_payload", "Clinical_Payload"), ("clinical payload", "Clinical_Payload"),
  ("payload", "Clinical_Payload"), ("clinical_data", "Clinical_Payload"), ("medical_data", "Clinical_Payload"),
  ("clinical_info", "Clinical_Payload"), ("data", "Clinical_Payload"), ("clinicalpayload", "Clinical_Payload"),
  ("clinicaldata", "Clinical_Payload"), ("clinicalinfo", "Clinical_Payload"), ("medicaldata", "Clinical_Payload"),
  ("medical_info", "Clinical_Payload"), ("medical info", "Clinical_Payload"), ("medicalinfo", "Clinical_Payload"),
  ("clinical_information", "Clinical_Payload"), ("clinical information", "Clinical_Payload"), ("clinicalinformation", "Clinical_Payload"),
  ("medical_information", "Clinical_Payload"), ("medical information", "Clinical_Payload"), ("medicalinformation", "Clinical_Payload"),
  ("patient_data", "Clinical_Payload"), ("patient data", "Clinical_Payload"), ("patientdata", "Clinical_Payload"),
  ("patient_info", "Clinical_Payload"), ("patient info", "Clinical_Payload"), ("patientinfo", "Clinical_Payload"),
  ("patient_information", "Clinical_Payload"), ("patient information", "Clinical_Payload"), ("patientinformation", "Clinical_Payload"),
  ("diagnosis", "Clinical_Payload"), ("diagnosis_data", "Clinical_Payload"), ("diagnosis data", "Clinical_Payload"),
  ("diagnosisdata", "Clinical_Payload"), ("diagnosis_info", "Clinical_Payload"), ("diagnosis info", "Clinical_Payload"),
  ("diagnosisinfo", "Clinical_Payload"), ("diagnosis_information", "Clinical_Payload"), ("diagnosis information", "Clinical_Payload"),
  ("diagnosisinformation", "Clinical_Payload"), ("treatment", "Clinical_Payload"), ("treatment_data", "Clinical_Payload"),
  ("treatment data", "Clinical_Payload"), ("treatmentdata", "Clinical_Payload"), ("treatment_info", "Clinical_Payload"),
  ("treatment info", "Clinical_Payload"), ("treatmentinfo", "Clinical_Payload"), ("treatment_information", "Clinical_Payload"),
  ("treatment information", "Clinical_Payload"), ("treatmentinformation", "Clinical_Payload"), ("medical_record", "Clinical_Payload"),
  ("medical record", "Clinical_Payload"), ("medicalrecord", "Clinical_Payload"), ("medical_record_data", "Clinical_Payload"),
  ("medical record data", "Clinical_Payload"), ("medicalrecorddata", "Clinical_Payload"), ("clinical_record", "Clinical_Payload"),
  ("clinical record", "Clinical_Payload"), ("clinicalrecord", "Clinical_Payload"), ("clinical_record_data", "Clinical_Payload"),
  ("clinical record data", "Clinical_Payload"), ("clinicalrecorddata", "Clinical_Payload"), ("health_data", "Clinical_Payload"),
  ("health data", "Clinical_Payload"), ("healthdata", "Clinical_Payload"), ("health_info", "Clinical_Payload"),
  ("health info", "Clinical_Payload"), ("healthinfo", "Clinical_Payload"), ("health_information", "Clinical_Payload"),
  ("health information", "Clinical_Payload"), ("healthinformation", "Clinical_Payload"), ("case_data", "Clinical_Payload"),
  ("case data", "Clinical_Payload"), ("casedata", "Clinical_Payload"), ("case_info", "Clinical_Payload"),
  ("case info", "Clinical_Payload"), ("caseinfo", "Clinical_Payload"), ("case_information", "Clinical_Payload"),
  ("case information", "Clinical_Payload"), ("caseinformation", "Clinical_Payload"), ("visit_data", "Clinical_Payload"),
  ("visit data", "Clinical_Payload"), ("visitdata", "Clinical_Payload"), ("visit_info", "Clinical_Payload"),
  ("visit info", "Clinical_Payload"), ("visitinfo", "Clinical_Payload"), ("visit_information", "Clinical_Payload"),
  ("visit information", "Clinical_Payload"), ("visitinformation", "Clinical_Payload"), ("encounter_data", "Clinical_Payload"),
  ("encounter data", "Clinical_Payload"), ("encounterdata", "Clinical_Payload"), ("encounter_info", "Clinical_Payload"),
  ("encounter info", "Clinical_Payload"), ("encounterinfo", "Clinical_Payload"), ("encounter_information", "Clinical_Payload"),
  ("encounter information", "Clinical_Payload"), ("encounterinformation", "Clinical_Payload"), ("episode_data", "Clinical_Payload"),
  ("episode data", "Clinical_Payload"), ("episodedata", "Clinical_Payload"), ("episode_info", "Clinical_Payload"),
  ("episode info", "Clinical_Payload"), ("episodeinfo", "Clinical_Payload"), ("episode_information", "Clinical_Payload"),
  ("episode information", "Clinical_Payload"), ("episodeinformation", "Clinical_Payload"), ("notes", "Clinical_Payload"),
  ("clinical_notes", "Clinical_Payload"), ("clinical notes", "Clinical_Payload"), ("clinicalnotes", "Clinical_Payload"),
  ("medical_notes", "Clinical_Payload"), ("medical notes", "Clinical_Payload"), ("medicalnotes", "Clinical_Payload"),
  ("doctor_notes", "Clinical_Payload"), ("doctor notes", "Clinical_Payload"), ("doctornotes", "Clinical_Payload"),
  ("physician_notes", "Clinical_Payload"), ("physician notes", "Clinical_Payload"), ("physiciannotes", "Clinical_Payload"),
  ("remarks", "Clinical_Payload"), ("clinical_remarks", "Clinical_Payload"), ("clinical remarks", "Clinical_Payload"),
  ("clinicalremarks", "Clinical_Payload"), ("medical_remarks", "Clinical_Payload"), ("medical remarks", "Clinical_Payload"),
  ("medicalremarks", "Clinical_Payload"), ("comments", "Clinical_Payload"), ("clinical_comments", "Clinical_Payload"),
  ("clinical comments", "Clinical_Payload"), ("clinicalcomments", "Clinical_Payload"), ("medical_comments", "Clinical_Payload"),
  ("medical comments", "Clinical_Payload"), ("medicalcomments", "Clinical_Payload"), ("consent_status", "Consent_Status"),
  ("consent status", "Consent_Status"), ("consent", "Consent_Status"), ("consent_state", "Consent_Status"),
  ("status", "Consent_Status"), ("consent_flag", "Consent_Status"), ("consentstatus", "Consent_Status"),
  ("consentstate", "Consent_Status"), ("consentflag", "Consent_Status"), ("consent_status_flag", "Consent_Status"),
  ("consent status flag", "Consent_Status"), ("consentstatusflag", "Consent_Status"), ("consent_state_flag", "Consent_Status"),
  ("consent state flag", "Consent_Status"), ("consentstateflag", "Consent_Status"), ("consent_indicator", "Consent_Status"),
  ("consent indicator", "Consent_Status"), ("consentindicator", "Consent_Status"), ("consent_type", "Consent_Status"),
  ("consent type", "Consent_Status"), ("consenttype", "Consent_Status"), ("consent_given", "Consent_Status"),
  ("consent given", "Consent_Status"), ("consentgiven", "Consent_Status"), ("consent_provided", "Consent_Status"),
  ("consent provided", "Consent_Status"), ("consentprovided", "Consent_Status"), ("consent_obtained", "Consent_Status"),
  ("consent obtained", "Consent_Status"), ("consentobtained", "Consent_Status"), ("consent_received", "Consent_Status"),
  ("consent received", "Consent_Status"), ("consentreceived", "Consent_Status"), ("consent_acknowledged", "Consent_Status"),
  ("consent acknowledged", "Consent_Status"), ("consentacknowledged", "Consent_Status"), ("consent_confirmed", "Consent_Status"),
  ("consent confirmed", "Consent_Status"), ("consentconfirmed", "Consent_Status"), ("consent_verified", "Consent_Status"),
  ("consent verified", "Consent_Status"), ("consentverified", "Consent_Status"), ("consent_approved", "Consent_Status"),
  ("consent approved", "Consent_Status"), ("consentapproved", "Consent_Status"), ("consent_authorized", "Consent_Status"),
  ("consent authorized", "Consent_Status"), ("consentauthorized", "Consent_Status"), ("consent_permission", "Consent_Status"),
  ("consent permission", "Consent_Status"), ("consentpermission", "Consent_Status"), ("consent_agreement", "Consent_Status"),
  ("consent agreement", "Consent_Status"), ("consentagreement", "Consent_Status"), ("data_consent", "Consent_Status"),
  ("data consent", "Consent_Status"), ("dataconsent", "Consent_Status"), ("data_consent_status", "Consent_Status"),
  ("data consent status", "Consent_Status"), ("dataconsentstatus", "Consent_Status"), ("privacy_consent", "Consent_Status"),
  ("privacy consent", "Consent_Status"), ("privacyconsent", "Consent_Status"), ("privacy_consent_status", "Consent_Status"),
  ("privacy consent status", "Consent_Status"), ("privacyconsentstatus", "Consent_Status"), ("consent_token", "Consent_Token"),
  ("consent token", "Consent_Token"), ("consenttoken", "Consent_Token"), ("token", "Consent_Token"),
  ("artifact", "Consent_Token"), ("consent_artifact", "Consent_Token"), ("patient_consent", "Consent_Status"),
  ("patient consent", "Consent_Status"), ("patientconsent", "Consent_Status"), ("patient_consent_status", "Consent_Status"),
  ("patient consent status", "Consent_Status"), ("patientconsentstatus", "Consent_Status"), ("authorization_status", "Consent_Status"),
  ("authorization status", "Consent_Status"), ("authorizationstatus", "Consent_Status"), ("authorization", "Consent_Status"),
  ("authorization_flag", "Consent_Status"), ("authorization flag", "Consent_Status"), ("authorizationflag", "Consent_Status"),
  ("permission_status", "Consent_Status"), ("permission status", "Consent_Status"), ("permissionstatus", "Consent_Status"),
  ("permission", "Consent_Status"), ("permission_flag", "Consent_Status"), ("permission flag", "Consent_Status"),
  ("permissionflag", "Consent_Status"), ("agreement_status", "Consent_Status"), ("agreement status", "Consent_Status"),
  ("agreementstatus", "Consent_Status"), ("agreement", "Consent_Status"), ("agreement_flag", "Consent_Status"),
  ("agreement flag", "Consent_Status"), ("agreementflag", "Consent_Status"), ("approval_status", "Consent_Status"),
  ("approval status", "Consent_Status"), ("approvalstatus", "Consent_Status"), ("approval", "Consent_Status"),
  ("approval_flag", "Consent_Status"), ("approval flag", "Consent_Status"), ("approvalflag", "Consent_Status"),
  ("verification_status", "Consent_Status"), ("verification status", "Consent_Status"), ("verificationstatus", "Consent_Status"),
  ("verification", "Consent_Status"), ("verification_flag", "Consent_Status"), ("verification flag", "Consent_Status"),
  ("verificationflag", "Consent_Status"), ("confirmation_status", "Consent_Status"), ("confirmation status", "Consent_Status"),
  ("confirmationstatus", "Consent_Status"), ("confirmation", "Consent_Status"), ("confirmation_flag", "Consent_Status"),
  ("confirmation flag", "Consent_Status"), ("confirmationflag", "Consent_Status"), ("acknowledgment_status", "Consent_Status"),
  ("acknowledgment status", "Consent_Status"), ("acknowledgmentstatus", "Consent_Status"), ("acknowledgment", "Consent_Status"),
  ("acknowledgment_flag", "Consent_Status"), ("acknowledgment flag", "Consent_Status"), ("acknowledgmentflag", "Consent_Status"),
  ("notice_id", "Notice_ID"), ("notice id", "Notice_ID"), ("notice", "Notice_ID"),
  ("notice_number", "Notice_ID"), ("notice num", "Notice_ID"), ("notice_num", "Notice_ID"),
  ("notification_id", "Notice_ID"), ("noticeid", "Notice_ID"), ("noticenumber", "Notice_ID"),
  ("noticenum", "Notice_ID"), ("notificationid", "Notice_ID"), ("notice_id_number", "Notice_ID"),
  ("notice id number", "Notice_ID"), ("noticeidnumber", "Notice_ID"), ("notice_id_no", "Notice_ID"),
  ("notice id no", "Notice_ID"), ("noticeidno", "Notice_ID"), ("notice_number_id", "Notice_ID"),
  ("notice number id", "Notice_ID"), ("noticenumberid", "Notice_ID"), ("notice_no", "Notice_ID"),
  ("notice no", "Notice_ID"), ("noticeno", "Notice_ID"), ("notice_code", "Notice_ID"),
  ("notice code", "Notice_ID"), ("noticecode", "Notice_ID"), ("notice_identifier", "Notice_ID"),
  ("notice identifier", "Notice_ID"), ("noticeidentifier", "Notice_ID"), ("notification_number", "Notice_ID"),
  ("notification number", "Notice_ID"), ("notificationnumber", "Notice_ID"), ("notification_no", "Notice_ID"),
  ("notification no", "Notice_ID"), ("notificationno", "Notice_ID"), ("notification_code", "Notice_ID"),
  ("notification code", "Notice_ID"), ("notificationcode", "Notice_ID"), ("notification_identifier", "Notice_ID"),
  ("notification identifier", "Notice_ID"), ("notificationidentifier", "Notice_ID"), ("dpdp_notice_id", "Notice_ID"),
  ("dpdp notice id", "Notice_ID"), ("dpdpnoticeid", "Notice_ID"), ("dpdp_notice_number", "Notice_ID"),
  ("dpdp notice number", "Notice_ID"), ("dpdpnoticenumber", "Notice_ID"), ("dpdp_notice_no", "Notice_ID"),
  ("dpdp notice no", "Notice_ID"), ("dpdpnoticeno", "Notice_ID"), ("dpdp_notification_id", "Notice_ID"),
  ("dpdp notification id", "Notice_ID"), ("dpdpnotificationid", "Notice_ID"), ("privacy_notice_id", "Notice_ID"),
  ("privacy notice id", "Notice_ID"), ("privacynoticeid", "Notice_ID"), ("privacy_notice_number", "Notice_ID"),
  ("privacy notice number", "Notice_ID"), ("privacynoticenumber", "Notice_ID"), ("privacy_notice_no", "Notice_ID"),
  ("privacy notice no", "Notice_ID"), ("privacynoticeno", "Notice_ID"), ("privacy_notification_id", "Notice_ID"),
  ("privacy notification id", "Notice_ID"), ("privacynotificationid", "Notice_ID"), ("data_notice_id", "Notice_ID"),
  ("data notice id", "Notice_ID"), ("datanoticeid", "Notice_ID"), ("data_notice_number", "Notice_ID"),
  ("data notice number", "Notice_ID"), ("datanoticenumber", "Notice_ID"), ("data_notice_no", "Notice_ID"),
  ("data notice no", "Notice_ID"), ("datanoticeno", "Notice_ID"), ("data_notification_id", "Notice_ID"),
  ("data notification id", "Notice_ID"), ("datanotificationid", "Notice_ID"), ("compliance_notice_id", "Notice_ID"),
  ("compliance notice id", "Notice_ID"), ("compliancenoticeid", "Notice_ID"), ("compliance_notice_number", "Notice_ID"),
  ("compliance notice number", "Notice_ID"), ("compliancenoticenumber", "Notice_ID"), ("compliance_notice_no", "Notice_ID"),
  ("compliance notice no", "Notice_ID"), ("compliancenoticeno", "Notice_ID"), ("compliance_notification_id", "Notice_ID"),
  ("compliance notification id", "Notice_ID"), ("compliancenotificationid", "Notice_ID"), ("legal_notice_id", "Notice_ID"),
  ("legal notice id", "Notice_ID"), ("legalnoticeid", "Notice_ID"), ("legal_notice_number", "Notice_ID"),
  ("legal notice number", "Notice_ID"), ("legalnoticenumber", "Notice_ID"), ("legal_notice_no", "Notice_ID"),
  ("legal notice no", "Notice_ID"), ("legalnoticeno", "Notice_ID"), ("legal_notification_id", "Notice_ID"),
  ("legal notification id", "Notice_ID"), ("legalnotificationid", "Notice_ID"), ("regulatory_notice_id", "Notice_ID"),
  ("regulatory notice id", "Notice_ID"), ("regulatorynoticeid", "Notice_ID"), ("regulatory_notice_number", "Notice_ID"),
  ("regulatory notice number", "Notice_ID"), ("regulatorynoticenumber", "Notice_ID"), ("regulatory_notice_no", "Notice_ID"),
  ("regulatory notice no", "Notice_ID"), ("regulatorynoticeno", "Notice_ID"), ("regulatory_notification_id", "Notice_ID"),
  ("regulatory notification id", "Notice_ID"), ("regulatorynotificationid", "Notice_ID"), ("document_id", "Notice_ID"),
  ("document id", "Notice_ID"), ("documentid", "Notice_ID"), ("document_number", "Notice_ID"),
  ("document number", "Notice_ID"), ("documentnumber", "Notice_ID"), ("document_no", "Notice_ID"),
  ("document no", "Notice_ID"), ("documentno", "Notice_ID"), ("document_code", "Notice_ID"),
  ("document code", "Notice_ID"), ("documentcode", "Notice_ID"), ("document_identifier", "Notice_ID"),
  ("document identifier", "Notice_ID"), ("documentidentifier", "Notice_ID"), ("reference_id", "Notice_ID"),
  ("reference id", "Notice_ID"), ("referenceid", "Notice_ID"), ("reference_number", "Notice_ID"),
  ("reference number", "Notice_ID"), ("referencenumber", "Notice_ID"), ("reference_no", "Notice_ID"),
  ("reference no", "Notice_ID"), ("referenceno", "Notice_ID"), ("reference_code", "Notice_ID"),
  ("reference code", "Notice_ID"), ("referencecode", "Notice_ID"), ("reference_identifier", "Notice_ID"),
  ("reference identifier", "Notice_ID"), ("referenceidentifier", "Notice_ID"), ("tracking_id", "Notice_ID"),
  ("tracking id", "Notice_ID"), ("trackingid", "Notice_ID"), ("tracking_number", "Notice_ID"),
  ("tracking number", "Notice_ID"), ("trackingnumber", "Notice_ID"), ("tracking_no", "Notice_ID"),
  ("tracking no", "Notice_ID"), ("trackingno", "Notice_ID"), ("tracking_code", "Notice_ID"),
  ("tracking code", "Notice_ID"), ("trackingcode", "Notice_ID"), ("tracking_identifier", "Notice_ID"),
  ("tracking identifier", "Notice_ID"), ("trackingidentifier", "Notice_ID"), ("id", "Notice_ID"),
  ("identifier", "Notice_ID"), ("number", "Notice_ID"), ("no", "Notice_ID"),
  ("code", "Notice_ID"), ("notice_date", "Notice_Date"), ("notice date", "Notice_Date"),
  ("date", "Notice_Date"), ("notice_datetime", "Notice_Date"), ("notification_date", "Notice_Date"),
  ("date_of_notice", "Notice_Date"), ("notice_issued_date", "Notice_Date"), ("noticedate", "Notice_Date"),
  ("noticedatetime", "Notice_Date"), ("notificationdate", "Notice_Date"), ("dateofnotice", "Notice_Date"),
  ("noticeissueddate", "Notice_Date"), ("notice_date_time", "Notice_Date"), ("notice date time", "Notice_Date"),
  ("notice_timestamp", "Notice_Date"), ("notice timestamp", "Notice_Date"), ("noticetimestamp", "Notice_Date"),
  ("notice_issue_date", "Notice_Date"), ("notice issue date", "Notice_Date"), ("noticeissuedate", "Notice_Date"),
  ("notice_issue_datetime", "Notice_Date"), ("notice issue datetime", "Notice_Date"), ("noticeissuedatetime", "Notice_Date"),
  ("notice_issue_timestamp", "Notice_Date"), ("notice issue timestamp", "Notice_Date"), ("noticeissuetimestamp", "Notice_Date"),
  ("notice_created_date", "Notice_Date"), ("notice created date", "Notice_Date"), ("noticecreateddate", "Notice_Date"),
  ("notice_created_datetime", "Notice_Date"), ("notice created datetime", "Notice_Date"), ("noticecreateddatetime", "Notice_Date"),
  ("notice_created_timestamp", "Notice_Date"), ("notice created timestamp", "Notice_Date"), ("noticecreatedtimestamp", "Notice_Date"),
  ("notice_sent_date", "Notice_Date"), ("notice sent date", "Notice_Date"), ("noticesentdate", "Notice_Date"),
  ("notice_sent_datetime", "Notice_Date"), ("notice sent datetime", "Notice_Date"), ("noticesentdatetime", "Notice_Date"),
  ("notice_sent_timestamp", "Notice_Date"), ("notice sent timestamp", "Notice_Date"), ("noticesenttimestamp", "Notice_Date"),
  ("notice_delivered_date", "Notice_Date"), ("notice delivered date", "Notice_Date"), ("noticedelivereddate", "Notice_Date"),
  ("notice_delivered_datetime", "Notice_Date"), ("notice delivered datetime", "Notice_Date"), ("noticedelivereddatetime", "Notice_Date"),
  ("notice_delivered_timestamp", "Notice_Date"), ("notice delivered timestamp", "Notice_Date"), ("noticedeliveredtimestamp", "Notice_Date"),
  ("notification_date_time", "Notice_Date"), ("notification date time", "Notice_Date"), ("notificationdatetime", "Notice_Date"),
  ("notification_timestamp", "Notice_Date"), ("notification timestamp", "Notice_Date"), ("notificationtimestamp", "Notice_Date"),
  ("notification_issue_date", "Notice_Date"), ("notification issue date", "Notice_Date"), ("notificationissuedate", "Notice_Date"),
  ("notification_issue_datetime", "Notice_Date"), ("notification issue datetime", "Notice_Date"), ("notificationissuedatetime", "Notice_Date"),
  ("notification_issue_timestamp", "Notice_Date"), ("notification issue timestamp", "Notice_Date"), ("notificationissuetimestamp", "Notice_Date"),
  ("notification_created_date", "Notice_Date"), ("notification created date", "Notice_Date"), ("notificationcreateddate", "Notice_Date"),
  ("notification_created_datetime", "Notice_Date"), ("notification created datetime", "Notice_Date"), ("notificationcreateddatetime", "Notice_Date"),
  ("notification_created_timestamp", "Notice_Date"), ("notification created timestamp", "Notice_Date"), ("notificationcreatedtimestamp", "Notice_Date"),
  ("notification_sent_date", "Notice_Date"), ("notification sent date", "Notice_Date"), ("notificationsentdate", "Notice_Date"),
  ("notification_sent_datetime", "Notice_Date"), ("notification sent datetime", "Notice_Date"), ("notificationsentdatetime", "Notice_Date"),
  ("notification_sent_timestamp", "Notice_Date"), ("notification sent timestamp", "Notice_Date"), ("notificationsenttimestamp", "Notice_Date"),
  ("notification_delivered_date", "Notice_Date"), ("notification delivered date", "Notice_Date"), ("notificationdelivereddate", "Notice_Date"),
  ("notification_delivered_datetime", "Notice_Date"), ("notification delivered datetime", "Notice_Date"), ("notificationdelivereddatetime", "Notice_Date"),
  ("notification_delivered_timestamp", "Notice_Date"), ("notification delivered timestamp", "Notice_Date"), ("notificationdeliveredtimestamp", "Notice_Date"),
  ("dpdp_notice_date", "Notice_Date"), ("dpdp notice date", "Notice_Date"), ("dpdpnoticedate", "Notice_Date"),
  ("dpdp_notice_datetime", "Notice_Date"), ("dpdp notice datetime", "Notice_Date"), ("dpdpnoticedatetime", "Notice_Date"),
  ("dpdp_notice_timestamp", "Notice_Date"), ("dpdp notice timestamp", "Notice_Date"), ("dpdpnoticetimestamp", "Notice_Date"),
  ("dpdp_notification_date", "Notice_Date"), ("dpdp notification date", "Notice_Date"), ("dpdpnotificationdate", "Notice_Date"),
  ("dpdp_notification_datetime", "Notice_Date"), ("dpdp notification datetime", "Notice_Date"), ("dpdpnotificationdatetime", "Notice_Date"),
  ("dpdp_notification_timestamp", "Notice_Date"), ("dpdp notification timestamp", "Notice_Date"), ("dpdpnotificationtimestamp", "Notice_Date"),
  ("privacy_notice_date", "Notice_Date"), ("privacy notice date", "Notice_Date"), ("privacynoticedate", "Notice_Date"),
  ("privacy_notice_datetime", "Notice_Date"), ("privacy notice datetime", "Notice_Date"), ("privacynoticedatetime", "Notice_Date"),
  ("privacy_notice_timestamp", "Notice_Date"), ("privacy notice timestamp", "Notice_Date"), ("privacynoticetimestamp", "Notice_Date"),
  ("privacy_notification_date", "Notice_Date"), ("privacy notification date", "Notice_Date"), ("privacynotificationdate", "Notice_Date"),
  ("privacy_notification_datetime", "Notice_Date"), ("privacy notification datetime", "Notice_Date"), ("privacynotificationdatetime", "Notice_Date"),
  ("privacy_notification_timestamp", "Notice_Date"), ("privacy notification timestamp", "Notice_Date"), ("privacynotificationtimestamp", "Notice_Date"),
  ("data_notice_date", "Notice_Date"), ("data notice date", "Notice_Date"), ("datanoticedate", "Notice_Date"),
  ("data_notice_datetime", "Notice_Date"), ("data notice datetime", "Notice_Date"), ("datanoticedatetime", "Notice_Date"),
  ("data_notice_timestamp", "Notice_Date"), ("data notice timestamp", "Notice_Date"), ("datanoticetimestamp", "Notice_Date"),
  ("data_notification_date", "Notice_Date"), ("data notification date", "Notice_Date"), ("datanotificationdate", "Notice_Date"),
  ("data_notification_datetime", "Notice_Date"), ("data notification datetime", "Notice_Date"), ("datanotificationdatetime", "Notice_Date"),
  ("data_notification_timestamp", "Notice_Date"), ("data notification timestamp", "Notice_Date"), ("datanotificationtimestamp", "Notice_Date"),
  ("compliance_notice_date", "Notice_Date"), ("compliance notice date", "Notice_Date"), ("compliancenoticedate", "Notice_Date"),
  ("compliance_notice_datetime", "Notice_Date"), ("compliance notice datetime", "Notice_Date"), ("compliancenoticedatetime", "Notice_Date"),
  ("compliance_notice_timestamp", "Notice_Date"), ("compliance notice timestamp", "Notice_Date"), ("compliancenoticetimestamp", "Notice_Date"),
  ("compliance_notification_date", "Notice_Date"), ("compliance notification date", "Notice_Date"), ("compliancenotificationdate", "Notice_Date"),
  ("compliance_notification_datetime", "Notice_Date"), ("compliance notification datetime", "Notice_Date"), ("compliancenotificationdatetime", "Notice_Date"),
  ("compliance_notification_timestamp", "Notice_Date"), ("compliance notification timestamp", "Notice_Date"), ("compliancenotificationtimestamp", "Notice_Date"),
  ("legal_notice_date", "Notice_Date"), ("legal notice date", "Notice_Date"), ("legalnoticedate", "Notice_Date"),
  ("legal_notice_datetime", "Notice_Date"), ("legal notice datetime", "Notice_Date"), ("legalnoticedatetime", "Notice_Date"),
  ("legal_notice_timestamp", "Notice_Date"), ("legal notice timestamp", "Notice_Date"), ("legalnoticetimestamp", "Notice_Date"),
  ("legal_notification_date", "Notice_Date"), ("legal notification date", "Notice_Date"), ("legalnotificationdate", "Notice_Date"),
  ("legal_notification_datetime", "Notice_Date"), ("legal notification datetime", "Notice_Date"), ("legalnotificationdatetime", "Notice_Date"),
  ("legal_notification_timestamp", "Notice_Date"), ("legal notification timestamp", "Notice_Date"), ("legalnotificationtimestamp", "Notice_Date"),
  ("regulatory_notice_date", "Notice_Date"), ("regulatory notice date", "Notice_Date"), ("regulatorynoticedate", "Notice_Date"),
  ("regulatory_notice_datetime", "Notice_Date"), ("regulatory notice datetime", "Notice_Date"), ("regulatorynoticedatetime", "Notice_Date"),
  ("regulatory_notice_timestamp", "Notice_Date"), ("regulatory notice timestamp", "Notice_Date"), ("regulatorynoticetimestamp", "Notice_Date"),
  ("regulatory_notification_date", "Notice_Date"), ("regulatory notification date", "Notice_Date"), ("regulatorynotificationdate", "Notice_Date"),
  ("regulatory_notification_datetime", "Notice_Date"), ("regulatory notification datetime", "Notice_Date"), ("regulatorynotificationdatetime", "Notice_Date"),
  ("regulatory_notification_timestamp", "Notice_Date"), ("regulatory notification timestamp", "Notice_Date"), ("regulatorynotificationtimestamp", "Notice_Date"),
  ("document_date", "Notice_Date"), ("document date", "Notice_Date"), ("documentdate", "Notice_Date"),
  ("document_datetime", "Notice_Date"), ("document datetime", "Notice_Date"), ("documentdatetime", "Notice_Date"),
  ("document_timestamp", "Notice_Date"), ("document timestamp", "Notice_Date"), ("documenttimestamp", "Notice_Date"),
  ("document_issue_date", "Notice_Date"), ("document issue date", "Notice_Date"), ("documentissuedate", "Notice_Date"),
  ("document_issue_datetime", "Notice_Date"), ("document issue datetime", "Notice_Date"), ("documentissuedatetime", "Notice_Date"),
  ("document_issue_timestamp", "Notice_Date"), ("document issue timestamp", "Notice_Date"), ("documentissuetimestamp", "Notice_Date"),
  ("document_created_date", "Notice_Date"), ("document created date", "Notice_Date"), ("documentcreateddate", "Notice_Date"),
  ("document_created_datetime", "Notice_Date"), ("document created datetime", "Notice_Date"), ("documentcreateddatetime", "Notice_Date"),
  ("document_created_timestamp", "Notice_Date"), ("document created timestamp", "Notice_Date"), ("documentcreatedtimestamp", "Notice_Date"),
  ("reference_date", "Notice_Date"), ("reference date", "Notice_Date"), ("referencedate", "Notice_Date"),
  ("reference_datetime", "Notice_Date"), ("reference datetime", "Notice_Date"), ("referencedatetime", "Notice_Date"),
  ("reference_timestamp", "Notice_Date"), ("reference timestamp", "Notice_Date"), ("referencetimestamp", "Notice_Date"),
  ("tracking_date", "Notice_Date"), ("tracking date", "Notice_Date"), ("trackingdate", "Notice_Date"),
  ("tracking_datetime", "Notice_Date"), ("tracking datetime", "Notice_Date"), ("trackingdatetime", "Notice_Date"),
  ("tracking_timestamp", "Notice_Date"), ("tracking timestamp", "Notice_Date"), ("trackingtimestamp", "Notice_Date"),
  ("issue_date", "Notice_Date"), ("issue date", "Notice_Date"), ("issuedate", "Notice_Date"),
  ("issue_datetime", "Notice_Date"), ("issue datetime", "Notice_Date"), ("issuedatetime", "Notice_Date"),
  ("issue_timestamp", "Notice_Date"), ("issue timestamp", "Notice_Date"), ("issuetimestamp", "Notice_Date"),
  ("created_date", "Notice_Date"), ("created date", "Notice_Date"), ("createddate", "Notice_Date"),
  ("created_datetime", "Notice_Date"), ("created datetime", "Notice_Date"), ("createddatetime", "Notice_Date"),
  ("created_timestamp", "Notice_Date"), ("created timestamp", "Notice_Date"), ("createdtimestamp", "Notice_Date"),
  ("sent_date", "Notice_Date"), ("sent date", "Notice_Date"), ("sentdate", "Notice_Date"),
  ("sent_datetime", "Notice_Date"), ("sent datetime", "Notice_Date"), ("sentdatetime", "Notice_Date"),
  ("sent_timestamp", "Notice_Date"), ("sent timestamp", "Notice_Date"), ("senttimestamp", "Notice_Date"),
  ("delivered_date", "Notice_Date"), ("delivered date", "Notice_Date"), ("delivereddate", "Notice_Date"),
  ("delivered_datetime", "Notice_Date"), ("delivered datetime", "Notice_Date"), ("delivereddatetime", "Notice_Date"),
  ("delivered_timestamp", "Notice_Date"), ("delivered timestamp", "Notice_Date"), ("deliveredtimestamp", "Notice_Date"),
  ("timestamp", "Notice_Date"), ("datetime", "Notice_Date"), ("date_time", "Notice_Date"),
  ("date time", "Notice_Date"), ("time", "Notice_Date"), ("record_date", "Notice_Date"),
  ("record date", "Notice_Date"), ("recorddate", "Notice_Date"), ("record_datetime", "Notice_Date"),
  ("record datetime", "Notice_Date"), ("recorddatetime", "Notice_Date"), ("record_timestamp", "Notice_Date"),
  ("record timestamp", "Notice_Date"), ("recordtimestamp", "Notice_Date"), ("entry_date", "Notice_Date"),
  ("entry date", "Notice_Date"), ("entrydate", "Notice_Date"), ("entry_datetime", "Notice_Date"),
  ("entry datetime", "Notice_Date"), ("entrydatetime", "Notice_Date"), ("entry_timestamp", "Notice_Date"),
  ("entry timestamp", "Notice_Date"), ("entrytimestamp", "Notice_Date"), ("submission_date", "Notice_Date"),
  ("submission date", "Notice_Date"), ("submissiondate", "Notice_Date"), ("submission_datetime", "Notice_Date"),
  ("submission datetime", "Notice_Date"), ("submissiondatetime", "Notice_Date"), ("submission_timestamp", "Notice_Date"),
  ("submission timestamp", "Notice_Date"), ("submissiontimestamp", "Notice_Date"), ("received_date", "Notice_Date"),
  ("received date", "Notice_Date"), ("receiveddate", "Notice_Date"), ("received_datetime", "Notice_Date"),
  ("received datetime", "Notice_Date"), ("receiveddatetime", "Notice_Date"), ("received_timestamp", "Notice_Date"),
  ("received timestamp", "Notice_Date"), ("receivedtimestamp", "Notice_Date"), ("processed_date", "Notice_Date"),
  ("processed date", "Notice_Date"), ("processeddate", "Notice_Date"), ("processed_datetime", "Notice_Date"),
  ("processed datetime", "Notice_Date"), ("processeddatetime", "Notice_Date"), ("processed_timestamp", "Notice_Date"),
  ("processed timestamp", "Notice_Date"), ("processedtimestamp", "Notice_Date"), ("updated_date", "Notice_Date"),
  ("updated date", "Notice_Date"), ("updateddate", "Notice_Date"), ("updated_datetime", "Notice_Date"),
  ("updated datetime", "Notice_Date"), ("updateddatetime", "Notice_Date"), ("updated_timestamp", "Notice_Date"),
  ("updated timestamp", "Notice_Date"), ("updatedtimestamp", "Notice_Date"), ("modified_date", "Notice_Date"),
  ("modified date", "Notice_Date"), ("modifieddate", "Notice_Date"), ("modified_datetime", "Notice_Date"),
  ("modified datetime", "Notice_Date"), ("modifieddatetime", "Notice_Date"), ("modified_timestamp", "Notice_Date"),
  ("modified timestamp", "Notice_Date"), ("modifiedtimestamp", "Notice_Date")]

/-- One step of the Python dict update
`suggestions[canonical_field] = (similarity, mapped_name)` guarded by
`canonical_field not in suggestions or similarity > suggestions[...][0]`:
replaces in place on strict improvement, appends a new key at the end. -/
def updateSuggestion (canon : String) (sim : ℚ) (al : String) :
    List (String × ℚ × String) → List (String × ℚ × String)
  | [] => [(canon, sim, al)]
  | e :: rest =>
    if e.1 = canon then (if sim > e.2.1 then (canon, sim, al) else e) :: rest
    else e :: updateSuggestion canon sim al rest

/-- The `suggestions` dict of `suggest_canonical_field` after the loop over
`FIELD_MAPPING.items()`: per canonical field, the best-scoring alias. -/
def suggestionTable (normalized : String) : List (String × ℚ × String) :=
  FIELD_MAPPING.foldl
    (fun acc p => updateSuggestion p.2 (calculate_similarity normalized p.1) p.1 acc) []

/-- Stable insertion into a list sorted by descending score (the behaviour of
Python `sorted(..., key=score, reverse=True)`): an element moves past entries
with strictly larger score and stops before entries with smaller-or-equal
score, so original order is kept on ties. -/
def insertDesc (x : String × ℚ × String) :
    List (String × ℚ × String) → List (String × ℚ × String)
  | [] => [x]
  | y :: ys => if y.2.1 ≤ x.2.1 then x :: y :: ys else y :: insertDesc x ys

/-- Stable sort by descending score (Python `sorted(..., reverse=True)`). -/
def sortDesc : List (String × ℚ × String) → List (String × ℚ × String)
  | [] => []
  | x :: xs => insertDesc x (sortDesc xs)

/-- Normalisation of a column name in `suggest_canonical_field`:
`column_name.strip().lower().replace(' ', '_').replace('-', '_')`. -/
def columnNormalize (column_name : String) : String :=
  pyReplaceChar '-' '_' (pyReplaceChar ' ' '_' (pyLower (pyStrip column_name)))

/-- `suggest_canonical_field` (`Phase_0.2/src/universal_adapter.py`): returns
`(suggested canonical field, confidence, alternatives)`, where alternatives
are drawn from the top three ranked suggestions excluding the best field. -/
def suggest_canonical_field (column_name : String) :
    Option String × ℚ × List (String × ℚ × String) :=
  if column_name = "" then (none, 0, [])
  else
    let suggestions := suggestionTable (columnNormalize column_name)
    match sortDesc suggestions with
    | [] => (none, 0, [])
    | best :: rest =>
      let alternatives := ((best :: rest).take 3).filter (fun e => e.1 ≠ best.1)
      (some best.1, best.2.1, alternatives)

/-- The suggestion gate of `standardize_dataframe`
(`if suggested and confidence > 0.3:`): an unknown column is offered a
canonical-field mapping only when a suggestion exists (truthy) and its
confidence exceeds 0.3. -/
def has_confident_suggestion (col : String) : Bool :=
  match suggest_canonical_field col with
  | (some f, conf, _) => f != "" && decide (conf > mkRat 3 10)
  | (none, _, _) => false

/-- The passthrough marker `standardize_dataframe` records for a column left
unmapped: `f"UNMAPPED_{col}"`. -/
def unmapped_marker (col : String) : String := "UNMAPPED_" ++ col


/-! ## FHIR bundle export (`Phase_0.3/src/compliance_engine.py`) -/

/-- JSON values, as built by `get_fhir_bundle` before `json.dumps`
(serialisation itself is out of scope; the claims are about the document
structure). -/
inductive JVal where
  | jnull : JVal
  | jstr : String → JVal
  | jarr : List JVal → JVal
  | jobj : List (String × JVal) → JVal

/-- Key lookup in a JSON object (Python `dict` access / `dict.get`). -/
def jlookup (kvs : List (String × JVal)) (k : String) : Option JVal :=
  (kvs.find? (fun p => p.1 == k)).map (fun p => p.2)

/-- An optional string as a JSON value (`None` serialises to `null`). -/
def joptStr : Option String → JVal
  | none => JVal.jnull
  | some s => JVal.jstr s

/-- `verify_fhir_structure` (`Phase_0.3/src/compliance_engine.py`): for a
`Patient` resource, the `name` block must be a non-empty list whose first
element has a `"text"` key; everything else passes.  (When `name_block[0]` is
itself a string, Python `"text" in name_block[0]` is a substring test; a first
element of any other type would raise in Python and is modelled as `false`.) -/
def verify_fhir_structure (resource : JVal) : Bool :=
  match resource with
  | JVal.jobj kvs =>
    match jlookup kvs "resourceType" with
    | some (JVal.jstr "Patient") =>
      let name_block := (jlookup kvs "name").getD (JVal.jarr [])
      match name_block with
      | JVal.jarr (first :: _) =>
        (match first with
          | JVal.jobj kvs2 => (jlookup kvs2 "text").isSome
          | JVal.jstr s => listIsSubOf "text".data s.data
          | _ => false)
      | _ => false
    | _ => true
  | _ => true

/-- The `Patient` resource `get_fhir_bundle` builds for one record row, with
the compliant nested `name` block and the consent/notice extensions. -/
def patient_resource (row : Row) : JVal :=
  JVal.jobj [
    ("resourceType", JVal.jstr "Patient"),
    ("identifier", JVal.jarr [JVal.jobj [
      ("system", JVal.jstr "https://healthidsbx.abdm.gov.in"),
      ("value", joptStr (row "ABHA_ID"))]]),
    ("name", JVal.jarr [JVal.jobj [("text", joptStr (row "Patient_Name"))]]),
    ("extension", JVal.jarr [
      JVal.jobj [
        ("url", JVal.jstr "https://abdm.gov.in/fhir/StructureDefinition/consent-status"),
        ("valueString", joptStr (row "Consent_Status"))],
      JVal.jobj [
        ("url", JVal.jstr "https://abdm.gov.in/fhir/StructureDefinition/notice-id"),
        ("valueString", joptStr (row "Notice_ID"))]])]

/-- The bundle entry wrapped around one patient resource (`fullUrl` renders
`row.get('Notice_ID')` through the f-string, so a missing id prints `None`;
the dicts produced by `to_dicts`/`to_dict` always carry the key, so the
`'unknown'` default of `.get` is dead). -/
def bundle_entry (row : Row) : JVal :=
  JVal.jobj [
    ("fullUrl", JVal.jstr ("urn:uuid:" ++ pyStr (row "Notice_ID"))),
    ("resource", patient_resource row)]

/-- `get_fhir_bundle` (`Phase_0.3/src/compliance_engine.py`).  `fromPandas`
selects the `isinstance(df, pd.DataFrame)` branch, which takes every record;
the polars branch first filters `Ingest_Status == "PROCESSED"`.  Each patient
resource is passed through `verify_fhir_structure` before inclusion;
`timestamp` abstracts `datetime.now().isoformat()`. -/
def get_fhir_bundle (fromPandas : Bool) (timestamp : String) (records : List Row) : JVal :=
  let selected :=
    if fromPandas then records
    else records.filter (fun r => r "Ingest_Status" == some "PROCESSED")
  let entries := selected.filterMap (fun row =>
    let pr := patient_resource row
    if verify_fhir_structure pr then some (bundle_entry row) else none)
  JVal.jobj [
    ("resourceType", JVal.jstr "Bundle"),
    ("type", JVal.jstr "collection"),
    ("timestamp", JVal.jstr timestamp),
    ("entry", JVal.jarr entries)]

/-- The entry list of a bundle (for stating claims about it). -/
def bundle_entries (b : JVal) : List JVal :=
  match b with
  | JVal.jobj kvs =>
    match jlookup kvs "entry" with
    | some (JVal.jarr l) => l
    | _ => []
  | _ => []

/-- The string field of a bundle object at a key (for stating claims). -/
def bundle_str (b : JVal) (k : String) : Option String :=
  match b with
  | JVal.jobj kvs =>
    match jlookup kvs k with
    | some (JVal.jstr s) => some s
    | _ => none
  | _ => none

/-- Whether a resource's `name` is a flat JSON string (the shape
`verify_fhir_structure` must reject) rather than a nested block. -/
def name_is_flat (resource : JVal) : Bool :=
  match resource with
  | JVal.jobj kvs =>
    match jlookup kvs "name" with
    | some (JVal.jstr _) => true
    | _ => false
  | _ => false

/-- Whether a resource's `name` has the compliant nested shape
`[{"text": ...}]`: a non-empty array whose first element is an object with a
`"text"` key. -/
def name_is_nested (resource : JVal) : Bool :=
  match resource with
  | JVal.jobj kvs =>
    match jlookup kvs "name" with
    | some (JVal.jarr (JVal.jobj kvs2 :: _)) => (jlookup kvs2 "text").isSome
    | _ => false
  | _ => false

/-! ## Theorems -/

/-- Unfolding of the four PII-field updates of `apply_purge` at a key. -/
theorem row_set_same (r : Row) (k v : String) : (r.set k v) k = some v := by
  simp [Row.set]

theorem row_set_other (r : Row) (k k2 v : String) (h : k2 ≠ k) : (r.set k v) k2 = r k2 := by
  simp [Row.set, h]

/-- C2: a record whose `ConsentStatus` is `REVOKED` evaluates to
`(PURGED, CONSENT_REVOKED)` for every notice date (in particular one 400 days
past the retention threshold), every data purpose, every retention threshold
and every date-parsing behaviour: `evaluate_record` tests `REVOKED` before
the expiry rule. -/
theorem claim_revoked_precedence (parseDate : String → Option Int) (threshold : Int)
    (notice_date data_purpose : Option String) :
    evaluate_record parseDate threshold (some "REVOKED") notice_date data_purpose =
      ("PURGED", "CONSENT_REVOKED") := rfl

/-- C9: `apply_purge` modifies at most `Clinical_Payload`, `Patient_Name`,
`ABHA_ID`, `Consent_Token` and `_Ingest_Status`; every other field of the row
(`Notice_ID`, `Notice_Date`, `Consent_Status`, `Data_Purpose`, ...) is
returned unchanged on both the `PURGED` and the non-`PURGED` branch. -/
theorem claim_apply_purge_frame (parseDate : String → Option Int) (threshold : Int)
    (row : Row) (k : String)
    (h : k ∉ ["Clinical_Payload", "Patient_Name", "ABHA_ID", "Consent_Token", "_Ingest_Status"]) :
    apply_purge parseDate threshold row k = row k := by
  simp only [List.mem_cons, List.not_mem_nil, or_false, not_or] at h
  obtain ⟨h1, h2, h3, h4, h5⟩ := h
  unfold apply_purge
  split
  · simp [Row.set, h1, h2, h3, h4, h5]
  · simp [Row.set, h5]

/-- Witness for C9 at a concrete revoked row and a concrete untouched field. -/
theorem claim_apply_purge_frame_witness :
    apply_purge (fun _ => none) 0
      (Row.ofList [("Consent_Status", "REVOKED"), ("Notice_ID", "N-2026-CONS-v1.2")])
      "Notice_ID" =
      Row.ofList [("Consent_Status", "REVOKED"), ("Notice_ID", "N-2026-CONS-v1.2")] "Notice_ID" :=
  claim_apply_purge_frame (fun _ => none) 0
    (Row.ofList [("Consent_Status", "REVOKED"), ("Notice_ID", "N-2026-CONS-v1.2")])
    "Notice_ID" (by decide)

/-- On the `PURGED` branch, the four PII fields of `apply_purge`'s output are
the fixed sentinels, independently of the input row. -/
theorem apply_purge_purged_eval (parseDate : String → Option Int) (threshold : Int)
    (row : Row)
    (h : (evaluate_record parseDate threshold (row "Consent_Status") (row "Notice_Date")
          (row "Data_Purpose")).1 = "PURGED") :
    apply_purge parseDate threshold row "Patient_Name" = some "REDACTED" ∧
    apply_purge parseDate threshold row "ABHA_ID" = some "REDACTED" ∧
    apply_purge parseDate threshold row "Consent_Token" = some "PURGED" ∧
    apply_purge parseDate threshold row "Clinical_Payload" = some "PURGED_DPDP_RULE_8_ERASURE" := by
  unfold apply_purge
  rw [if_pos h]
  refine ⟨?_, ?_, ?_, ?_⟩ <;> simp [Row.set]

/-- C1: every row classified `PURGED` leaves `apply_purge` with
`Patient_Name = "REDACTED"`, `ABHA_ID = "REDACTED"`,
`Consent_Token = "PURGED"` (each a fixed redaction sentinel) and
`Clinical_Payload = "PURGED_DPDP_RULE_8_ERASURE"`, a fixed erased marker
distinct from the empty value; the outputs of any two purged rows agree on
all four fields, so the original values are not recoverable from the output
record. -/
theorem claim_purged_records_redacted (parseDate : String → Option Int) (threshold : Int)
    (row : Row)
    (h : (evaluate_record parseDate threshold (row "Consent_Status") (row "Notice_Date")
          (row "Data_Purpose")).1 = "PURGED") :
    apply_purge parseDate threshold row "Patient_Name" = some "REDACTED" ∧
    apply_purge parseDate threshold row "ABHA_ID" = some "REDACTED" ∧
    apply_purge parseDate threshold row "Consent_Token" = some "PURGED" ∧
    apply_purge parseDate threshold row "Clinical_Payload" = some "PURGED_DPDP_RULE_8_ERASURE" ∧
    "PURGED_DPDP_RULE_8_ERASURE" ≠ "" ∧
    ∀ (pd2 : String → Option Int) (th2 : Int) (row2 : Row),
      (evaluate_record pd2 th2 (row2 "Consent_Status") (row2 "Notice_Date")
        (row2 "Data_Purpose")).1 = "PURGED" →
      (apply_purge pd2 th2 row2 "Patient_Name" = apply_purge parseDate threshold row "Patient_Name" ∧
       apply_purge pd2 th2 row2 "ABHA_ID" = apply_purge parseDate threshold row "ABHA_ID" ∧
       apply_purge pd2 th2 row2 "Consent_Token" = apply_purge parseDate threshold row "Consent_Token" ∧
       apply_purge pd2 th2 row2 "Clinical_Payload" =
         apply_purge parseDate threshold row "Clinical_Payload") := by
  obtain ⟨e1, e2, e3, e4⟩ := apply_purge_purged_eval parseDate threshold row h
  refine ⟨e1, e2, e3, e4, by decide, ?_⟩
  intro pd2 th2 row2 h2
  obtain ⟨f1, f2, f3, f4⟩ := apply_purge_purged_eval pd2 th2 row2 h2
  exact ⟨by rw [e1, f1], by rw [e2, f2], by rw [e3, f3], by rw [e4, f4]⟩

/-- Witness for C1 at a concrete revoked row. -/
theorem claim_purged_records_redacted_witness :
    (evaluate_record (fun _ => none) 0
      (Row.ofList [("Consent_Status", "REVOKED"), ("Patient_Name", "Vikram Malhotra")] "Consent_Status")
      (Row.ofList [("Consent_Status", "REVOKED"), ("Patient_Name", "Vikram Malhotra")] "Notice_Date")
      (Row.ofList [("Consent_Status", "REVOKED"), ("Patient_Name", "Vikram Malhotra")] "Data_Purpose")).1
      = "PURGED" ∧
    apply_purge (fun _ => none) 0
      (Row.ofList [("Consent_Status", "REVOKED"), ("Patient_Name", "Vikram Malhotra")])
      "Patient_Name" = some "REDACTED" := by
  refine ⟨by decide, ?_⟩
  exact (claim_purged_records_redacted (fun _ => none) 0
    (Row.ofList [("Consent_Status", "REVOKED"), ("Patient_Name", "Vikram Malhotra")])
    (by decide)).1

/-- C4 (failing input): in `src/ingress.py`, a record with a well-formed
ABHA id, granted consent and an unexpired date whose `Notice_ID` starts with
`N-2025` is classified `PURGED` by the status cascade, but the reason cascade
has no `N-2025` branch, so the record carries the `"N/A"` reason reserved for
`PROCESSED` records — contradicting the invariant that a non-`PROCESSED`
record carries a non-none reason. -/
theorem claim_status_reason_bug :
    srcIngressStatus 0 (some "91-2345-6789-0123") (some "GRANTED") 0
      (some "N-2025-CONS-v1.0") = "PURGED" ∧
    srcIngressReason 0 (some "91-2345-6789-0123") (some "GRANTED") 0
      (some "N-2025-CONS-v1.0") = "N/A" := by decide

/-- C5 (counterexample): the repository-root `ingress.py` tags the purge of a
record with `Notice_ID = "N-2025-CONS-v1.0"` with reason
`OUTDATED_NOTICE_ERROR`, not the claimed `OUTDATED_NOTICE_VERSION`. -/
theorem claim_notice_version_counterexample :
    rootIngressStatus 0 (some "91-2345-6789-0123") (some "GRANTED") (some 0)
      (some "N-2025-CONS-v1.0") = "PURGED" ∧
    rootIngressReason 0 (some "91-2345-6789-0123") (some "GRANTED") (some 0)
      (some "N-2025-CONS-v1.0") = "OUTDATED_NOTICE_ERROR" ∧
    ("OUTDATED_NOTICE_ERROR" == "OUTDATED_NOTICE_VERSION") = false := by decide

/-- C5 (amended): notice-id validity is the strict pattern
`^N-2026-[A-Z]{3,4}-v\d+\.\d+$` with the accepted year 2026 hardcoded in the
engine; `"N-2026-CONS-v1.2"` validates, `"N-2025-CONS-v1.0"` does not, and a
record with a well-formed ABHA id, non-revoked consent and unexpired date
whose `Notice_ID` starts with `N-2025` is classified
`(PURGED, OUTDATED_NOTICE_ERROR)` by the repository-root ingress cascade. -/
theorem claim_notice_version_amended :
    validate_notice_id (some "N-2026-CONS-v1.2") = true ∧
    validate_notice_id (some "N-2025-CONS-v1.0") = false ∧
    ∀ (threshold : Int) (a : String) (cs : Option String) (nDate : Option Int) (nid : String),
      abha14_match a = true →
      cs ≠ some "REVOKED" →
      (∀ d, nDate = some d → ¬(d < threshold)) →
      pyStartsWith "N-2025" nid = true →
      rootIngressStatus threshold (some a) cs nDate (some nid) = "PURGED" ∧
      rootIngressReason threshold (some a) cs nDate (some nid) = "OUTDATED_NOTICE_ERROR" := by
  refine ⟨by decide, by decide, ?_⟩
  intro threshold a cs nDate nid ha hcs hdate hnid
  have hne : a ≠ "" := by
    intro he
    rw [he] at ha
    exact absurd ha (by decide)
  have hbeq : (a == "") = false := by
    simp [hne]
  have hcsb : (cs == some "REVOKED") = false := by
    simp [hcs]
  cases nDate with
  | none =>
    constructor
    · unfold rootIngressStatus
      simp [hbeq, ha, hcsb, hnid]
    · unfold rootIngressReason
      simp [hbeq, ha, hcsb, hnid]
  | some d =>
    have hd : ¬(d < threshold) := hdate d rfl
    constructor
    · unfold rootIngressStatus
      simp [hbeq, ha, hcsb, hnid, hd]
    · unfold rootIngressReason
      simp [hbeq, ha, hcsb, hnid, hd]

/-- Witness for C5's amended theorem at the spec's concrete record. -/
theorem claim_notice_version_amended_witness :
    validate_notice_id (some "N-2026-CONS-v1.2") = true ∧
    rootIngressStatus 365 (some "91-2345-6789-0123") (some "GRANTED") (some 400)
      (some "N-2025-CONS-v1.0") = "PURGED" ∧
    rootIngressReason 365 (some "91-2345-6789-0123") (some "GRANTED") (some 400)
      (some "N-2025-CONS-v1.0") = "OUTDATED_NOTICE_ERROR" := by
  have h := claim_notice_version_amended
  obtain ⟨hv, -, hmain⟩ := h
  have := hmain 365 "91-2345-6789-0123" (some "GRANTED") (some 400) "N-2025-CONS-v1.0"
    (by decide) (by decide)
    (by intro d hd; injection hd with hd; omega) (by decide)
  exact ⟨hv, this.1, this.2⟩

/-- C3 (counterexample): an empty ABHA id is quarantined with reason string
`"MISSING_ABHA"`, not the claimed `"MISSING_ID"`. -/
theorem claim_identity_reason_counterexample :
    srcIngressStatus 0 (some "") (some "GRANTED") 0 (some "N-2026-CONS-v1.2") = "QUARANTINED" ∧
    srcIngressReason 0 (some "") (some "GRANTED") 0 (some "N-2026-CONS-v1.2") = "MISSING_ABHA" ∧
    ("MISSING_ABHA" == "MISSING_ID") = false := by decide

/-- A malformed (present, non-empty, regex-failing) ABHA id quarantines with
reason `MALFORMED_ID` in the `src/ingress.py` cascade. -/
theorem srcIngress_malformed (threshold : Int) (s : String) (consent : Option String)
    (nDate : Int) (nId : Option String) (hne : s ≠ "") (hval : srcAbhaValid s = false) :
    srcIngressStatus threshold (some s) consent nDate nId = "QUARANTINED" ∧
    srcIngressReason threshold (some s) consent nDate nId = "MALFORMED_ID" := by
  have hbeq : (s == "") = false := by simp [hne]
  constructor
  · unfold srcIngressStatus
    simp [hbeq, hval]
  · unfold srcIngressReason
    simp [hbeq, hval]

/-- C3 (amended): in the `src/ingress.py` cascade a null or empty ABHA id
yields `(QUARANTINED, MISSING_ABHA)` (the claim's `MISSING_ID`), a present id
matching neither the 14-digit hyphenated pattern nor the sandbox-address
pattern yields `(QUARANTINED, MALFORMED_ID)`, and these identity checks
precede every purge rule: a missing or malformed id is never classified
`PURGED`, for every consent status (including `REVOKED`), date and notice id;
`"91-2345-6789-0123"` and a sandbox address are well-formed, `"ABHA-777"` is
not. -/
theorem claim_identity_checks_amended :
    (∀ (threshold : Int) (consent : Option String) (nDate : Int) (nId : Option String),
      srcIngressStatus threshold none consent nDate nId = "QUARANTINED" ∧
      srcIngressReason threshold none consent nDate nId = "MISSING_ABHA" ∧
      srcIngressStatus threshold (some "") consent nDate nId = "QUARANTINED" ∧
      srcIngressReason threshold (some "") consent nDate nId = "MISSING_ABHA") ∧
    (∀ (threshold : Int) (s : String) (consent : Option String) (nDate : Int) (nId : Option String),
      s ≠ "" → srcAbhaValid s = false →
      srcIngressStatus threshold (some s) consent nDate nId = "QUARANTINED" ∧
      srcIngressReason threshold (some s) consent nDate nId = "MALFORMED_ID") ∧
    (∀ (threshold : Int) (abha consent : Option String) (nDate : Int) (nId : Option String),
      (abha = none ∨ abha = some "" ∨ ∃ s, abha = some s ∧ s ≠ "" ∧ srcAbhaValid s = false) →
      srcIngressStatus threshold abha consent nDate nId ≠ "PURGED") ∧
    srcAbhaValid "91-2345-6789-0123" = true ∧
    srcAbhaValid "john.doe@sbx" = true ∧
    srcAbhaValid "ABHA-777" = false := by
  refine ⟨?_, srcIngress_malformed, ?_, by decide, by decide, by decide⟩
  · intro threshold consent nDate nId
    exact ⟨rfl, rfl, rfl, rfl⟩
  · intro threshold abha consent nDate nId h
    rcases h with h | h | ⟨s, hs, hne, hval⟩
    · subst h
      intro hc
      have hq : srcIngressStatus threshold none consent nDate nId = "QUARANTINED" := rfl
      rw [hq] at hc
      exact absurd hc (by decide)
    · subst h
      intro hc
      have hq : srcIngressStatus threshold (some "") consent nDate nId = "QUARANTINED" := rfl
      rw [hq] at hc
      exact absurd hc (by decide)
    · subst hs
      intro hc
      rw [(srcIngress_malformed threshold s consent nDate nId hne hval).1] at hc
      exact absurd hc (by decide)

/-- Witness for C3's amended theorem: the malformed id `"ABHA-777"` with
revoked consent is quarantined as `MALFORMED_ID`, not purged. -/
theorem claim_identity_checks_amended_witness :
    srcIngressStatus 365 (some "ABHA-777") (some "REVOKED") 400 (some "N-2026-CONS-v1.2")
      = "QUARANTINED" ∧
    srcIngressReason 365 (some "ABHA-777") (some "REVOKED") 400 (some "N-2026-CONS-v1.2")
      = "MALFORMED_ID" ∧
    srcIngressStatus 365 (some "ABHA-777") (some "REVOKED") 400 (some "N-2026-CONS-v1.2")
      ≠ "PURGED" := by
  obtain ⟨-, hmal, hnp, -, -, -⟩ := claim_identity_checks_amended
  obtain ⟨h1, h2⟩ := hmal 365 "ABHA-777" (some "REVOKED") 400 (some "N-2026-CONS-v1.2")
    (by decide) (by decide)
  refine ⟨h1, h2, ?_⟩
  exact hnp 365 (some "ABHA-777") (some "REVOKED") 400 (some "N-2026-CONS-v1.2")
    (Or.inr (Or.inr ⟨"ABHA-777", rfl, by decide, by decide⟩))

/-- A prefix is no longer than the list it prefixes. -/
theorem listIsPrefixOf_length {a b : List Char} (h : listIsPrefixOf a b = true) :
    a.length ≤ b.length := by
  induction a generalizing b with
  | nil => simp
  | cons x xs ih =>
    cases b with
    | nil => simp [listIsPrefixOf] at h
    | cons y ys =>
      simp only [listIsPrefixOf, Bool.and_eq_true] at h
      simpa using ih h.2

/-- A substring is no longer than the string containing it. -/
theorem listIsSubOf_length {a b : List Char} (h : listIsSubOf a b = true) :
    a.length ≤ b.length := by
  induction b with
  | nil =>
    simp only [listIsSubOf, List.isEmpty_iff] at h
    simp [h]
  | cons y ys ih =>
    simp only [listIsSubOf, Bool.or_eq_true] at h
    rcases h with h | h
    · exact listIsPrefixOf_length h
    · exact Nat.le_succ_of_le (ih h)

/-- `shaRound` preserves the length of the state list. -/
theorem shaRound_length (st : List Nat) (wk : Nat × Nat) :
    (shaRound st wk).length = st.length := by
  unfold shaRound
  split <;> simp

/-- Folding `shaRound` preserves the length of the state list. -/
theorem foldl_shaRound_length (l : List (Nat × Nat)) (st : List Nat) :
    (l.foldl shaRound st).length = st.length := by
  induction l generalizing st with
  | nil => rfl
  | cons x xs ih => simp [List.foldl, ih, shaRound_length]

/-- `shaCompress` preserves the length of the hash state. -/
theorem shaCompress_length (hs chunk : List Nat) :
    (shaCompress hs chunk).length = hs.length := by
  unfold shaCompress
  simp [foldl_shaRound_length]

/-- Folding `shaCompress` preserves the length of the hash state. -/
theorem foldl_shaCompress_length (chunks : List (List Nat)) (hs : List Nat) :
    (chunks.foldl shaCompress hs).length = hs.length := by
  induction chunks generalizing hs with
  | nil => rfl
  | cons c cs ih => simp [List.foldl, ih, shaCompress_length]

/-- A SHA-256 digest is 32 bytes. -/
theorem sha256Bytes_length (msg : List Nat) : (sha256Bytes msg).length = 32 := by
  unfold sha256Bytes
  have h8 : ((chunks64 (shaPad msg)).foldl shaCompress shaH0).length = 8 :=
    foldl_shaCompress_length _ _
  generalize ((chunks64 (shaPad msg)).foldl shaCompress shaH0) = hfin at h8
  have : ∀ l : List Nat, ((l.map be4).flatten).length = 4 * l.length := by
    intro l
    induction l with
    | nil => rfl
    | cons x xs ih => simp [be4, ih]; ring
  rw [this, h8]

/-- A SHA-256 hex digest is 64 characters. -/
theorem sha256hex_length (s : String) : (sha256hex s).data.length = 64 := by
  unfold sha256hex
  have h32 := sha256Bytes_length (utf8Bytes s)
  generalize sha256Bytes (utf8Bytes s) = bytes at h32
  have : ∀ l : List Nat, ((l.map byteHex).flatten).length = 2 * l.length := by
    intro l
    induction l with
    | nil => rfl
    | cons x xs ih => simp [byteHex, ih]; ring
  simp only [String.data]
  rw [this, h32]

/-- C10 (counterexample): `hash_id` on the one-character identifier `"a"`
(which is neither falsy nor a sentinel) produces `"ca978112****"`, and the raw
identifier `"a"` does occur as a substring of that output, refuting "the raw
identifier never appears in the output". -/
theorem claim_hash_id_counterexample :
    (("a" == "") = false ∧ (["REDACTED", "UNKNOWN", "None"].contains "a") = false) ∧
    hash_id (some "a") = "ca978112****" ∧
    substrOf "a" (hash_id (some "a")) = true := by
  exact ⟨by decide, by decide, by decide⟩

/-- C10 (amended): `hash_id` maps `None`, the empty identifier and the
sentinels `REDACTED`/`UNKNOWN`/`None` to the constant `"****"`; every other
identifier maps deterministically to the first 8 hex characters of its
SHA-256 digest followed by `"****"` — a fixed 12-character output — so a raw
identifier longer than the 12-character output never appears in it. -/
theorem claim_hash_id_amended :
    (∀ id : Option String,
      (id = none ∨ id = some "" ∨ id = some "REDACTED" ∨ id = some "UNKNOWN" ∨ id = some "None") →
      hash_id id = "****") ∧
    (∀ s : String, s ≠ "" → s ≠ "REDACTED" → s ≠ "UNKNOWN" → s ≠ "None" →
      hash_id (some s) = (⟨(sha256hex s).data.take 8⟩ : String) ++ "****" ∧
      (hash_id (some s)).data.length = 12 ∧
      (12 < s.data.length → substrOf s (hash_id (some s)) = false)) := by
  constructor
  · rintro id (rfl | rfl | rfl | rfl | rfl) <;> rfl
  · intro s h1 h2 h3 h4
    have hcond : (s = "" || s = "REDACTED" || s = "UNKNOWN" || s = "None") = false := by
      simp [h1, h2, h3, h4]
    have heq : hash_id (some s) = (⟨(sha256hex s).data.take 8⟩ : String) ++ "****" := by
      simp only [hash_id]
      rw [hcond]
      simp
    have hlen : (hash_id (some s)).data.length = 12 := by
      rw [heq]
      have hdata : ((⟨(sha256hex s).data.take 8⟩ : String) ++ "****").data =
          (sha256hex s).data.take 8 ++ "****".data := rfl
      rw [hdata, List.length_append, List.length_take, sha256hex_length]
      decide
    refine ⟨heq, hlen, ?_⟩
    intro h12
    cases hs : substrOf s (hash_id (some s)) with
    | false => rfl
    | true =>
      unfold substrOf at hs
      have hle := listIsSubOf_length hs
      rw [hlen] at hle
      omega

/-- Witness for C10's amended theorem: the 17-character identifier
`"91-2345-6789-0123"` hashes to a 12-character fingerprint in which the raw
identifier does not occur. -/
theorem claim_hash_id_amended_witness :
    hash_id none = "****" ∧
    (hash_id (some "91-2345-6789-0123")).data.length = 12 ∧
    substrOf "91-2345-6789-0123" (hash_id (some "91-2345-6789-0123")) = false := by
  obtain ⟨hsent, hmain⟩ := claim_hash_id_amended
  obtain ⟨-, hlen, hsub⟩ := hmain "91-2345-6789-0123" (by decide) (by decide) (by decide) (by decide)
  exact ⟨hsent none (Or.inl rfl), hlen, hsub (by decide)⟩

/-- C8 (counterexample): through the `isinstance(df, pd.DataFrame)` branch of
`get_fhir_bundle`, a frame with a single `PURGED` record still produces one
bundle entry, although it contains zero `PROCESSED` records — so the bundle
does not contain one entry per `PROCESSED` record. -/
theorem claim_bundle_counterexample :
    (bundle_entries (get_fhir_bundle true "2026-02-01T00:00:00"
      [Row.ofList [("Ingest_Status", "PURGED"), ("ABHA_ID", "REDACTED"),
        ("Patient_Name", "REDACTED"), ("Consent_Status", "REVOKED"),
        ("Notice_ID", "N-2026-CONS-v1.2")]])).length = 1 ∧
    ([Row.ofList [("Ingest_Status", "PURGED"), ("ABHA_ID", "REDACTED"),
        ("Patient_Name", "REDACTED"), ("Consent_Status", "REVOKED"),
        ("Notice_ID", "N-2026-CONS-v1.2")]].filter
      (fun r => r "Ingest_Status" == some "PROCESSED")).length = 0 := by
  exact ⟨rfl, rfl⟩

/-- Every patient resource built by `get_fhir_bundle` passes the auditor
check and carries the compliant nested name block, never a flat string. -/
theorem patient_resource_nested (row : Row) :
    verify_fhir_structure (patient_resource row) = true ∧
    name_is_nested (patient_resource row) = true ∧
    name_is_flat (patient_resource row) = false :=
  ⟨rfl, rfl, rfl⟩

/-- The verification filter of `get_fhir_bundle` accepts every built entry. -/
theorem bundle_filterMap_eq_map (l : List Row) :
    (l.filterMap (fun row =>
      if verify_fhir_structure (patient_resource row) then some (bundle_entry row) else none)) =
    l.map bundle_entry := by
  induction l with
  | nil => rfl
  | cons r rs ih =>
    simp only [List.filterMap_cons, List.map_cons]
    rw [if_pos (patient_resource_nested r).1, ih]

/-- C8 (amended): `get_fhir_bundle` produces a document with
`resourceType = "Bundle"` and `type = "collection"`; on the polars branch it
contains exactly one patient-identity entry per `PROCESSED` record, while the
pandas branch takes one entry per record regardless of status; every entry's
resource carries the identifier, the nested `name = [{"text": ...}]` block
(never a flat name string) and the consent/notice extensions, and is checked
by `verify_fhir_structure` before inclusion. -/
theorem claim_bundle_amended (timestamp : String) (records : List Row) :
    (∀ fromPandas,
      bundle_str (get_fhir_bundle fromPandas timestamp records) "resourceType" = some "Bundle" ∧
      bundle_str (get_fhir_bundle fromPandas timestamp records) "type" = some "collection") ∧
    bundle_entries (get_fhir_bundle false timestamp records) =
      (records.filter (fun r => r "Ingest_Status" == some "PROCESSED")).map bundle_entry ∧
    bundle_entries (get_fhir_bundle true timestamp records) = records.map bundle_entry ∧
    (∀ row : Row,
      verify_fhir_structure (patient_resource row) = true ∧
      name_is_nested (patient_resource row) = true ∧
      name_is_flat (patient_resource row) = false) := by
  refine ⟨?_, ?_, ?_, patient_resource_nested⟩
  · intro fromPandas
    cases fromPandas <;> exact ⟨rfl, rfl⟩
  · show (List.filterMap _ _) = _
    exact bundle_filterMap_eq_map _
  · show (List.filterMap _ _) = _
    exact bundle_filterMap_eq_map _

/-- `qadd` agrees with rational addition. -/
theorem qadd_eq (a b : ℚ) : qadd a b = a + b := (Rat.add_def' a b).symm

/-- `qmul` agrees with rational multiplication. -/
theorem qmul_eq (a b : ℚ) : qmul a b = a * b := by
  rw [Rat.mul_def, Rat.normalize_eq_mkRat]
  rfl

/-- `mkRat` over naturals is plain division in `ℚ`. -/
theorem mkRat_natCast_div (i u : Nat) : (mkRat i u : ℚ) = (i : ℚ) / (u : ℚ) := by
  rw [Rat.mkRat_eq_div]
  norm_num

/-- A quotient of a smaller by a larger natural lies in `[0, 1]`. -/
theorem mkRat_natCast_bounds (i u : Nat) (hle : i ≤ u) :
    0 ≤ (mkRat i u : ℚ) ∧ (mkRat i u : ℚ) ≤ 1 := by
  rw [mkRat_natCast_div]
  constructor
  · positivity
  · rcases Nat.eq_zero_or_pos u with h | h
    · subst h
      simp
    · rw [div_le_one (by exact_mod_cast h)]
      exact_mod_cast hle

/-- Zeta-expanded form of `calculate_similarity`, for rewriting. -/
theorem calculate_similarity_def (str1 str2 : String) :
    calculate_similarity str1 str2 =
      (if pyStrip (pyLower str1) = pyStrip (pyLower str2) then 1
       else if substrOf (pyStrip (pyLower str1)) (pyStrip (pyLower str2)) ||
              substrOf (pyStrip (pyLower str2)) (pyStrip (pyLower str1)) then mkRat 4 5
       else
        qadd
          (qmul
            (if ((pyStrip (pyLower str1)).data.toFinset ∪ (pyStrip (pyLower str2)).data.toFinset).card = 0
             then 0
             else mkRat (((pyStrip (pyLower str1)).data.toFinset ∩ (pyStrip (pyLower str2)).data.toFinset).card)
                (((pyStrip (pyLower str1)).data.toFinset ∪ (pyStrip (pyLower str2)).data.toFinset).card))
            (mkRat 1 2))
          (qmul
            (if ((splitOnChar '_' (pyStrip (pyLower str1)).data).toFinset ∪
                 (splitOnChar '_' (pyStrip (pyLower str2)).data).toFinset).card = 0
             then 0
             else mkRat (((splitOnChar '_' (pyStrip (pyLower str1)).data).toFinset ∩
                  (splitOnChar '_' (pyStrip (pyLower str2)).data).toFinset).card)
                (((splitOnChar '_' (pyStrip (pyLower str1)).data).toFinset ∪
                  (splitOnChar '_' (pyStrip (pyLower str2)).data).toFinset).card))
            (mkRat 1 2))) := rfl

/-- `splitOnChar` never returns the empty list of segments. -/
theorem splitOnChar_ne_nil (sep : Char) (l : List Char) : splitOnChar sep l ≠ [] := by
  cases l with
  | nil => simp [splitOnChar]
  | cons c rest =>
    simp only [splitOnChar]
    split
    · simp
    · split <;> simp

/-- A natural-quotient bound in division form. -/
theorem div_bounds_aux (i u : Nat) (hle : i ≤ u) :
    0 ≤ (i : ℚ) / (u : ℚ) ∧ (i : ℚ) / (u : ℚ) ≤ 1 := by
  have h := mkRat_natCast_bounds i u hle
  rwa [mkRat_natCast_div] at h

/-- C6: writing `s1, s2` for the lower-cased and stripped inputs, the
similarity score is 1 when `s1 = s2`, else 0.8 when one is a substring of the
other, else the even Jaccard blend
`|chars(s1) ∩ chars(s2)| / |chars(s1) ∪ chars(s2)| * 1/2 +
 |words(s1) ∩ words(s2)| / |words(s1) ∪ words(s2)| * 1/2`
over character sets and underscore-delimited word sets; and the score always
lies between 0 and 1. -/
theorem claim_similarity_blend (str1 str2 : String) :
    (pyStrip (pyLower str1) = pyStrip (pyLower str2) → calculate_similarity str1 str2 = 1) ∧
    (pyStrip (pyLower str1) ≠ pyStrip (pyLower str2) →
      (substrOf (pyStrip (pyLower str1)) (pyStrip (pyLower str2)) = true ∨
       substrOf (pyStrip (pyLower str2)) (pyStrip (pyLower str1)) = true) →
      calculate_similarity str1 str2 = (4 : ℚ) / 5) ∧
    (pyStrip (pyLower str1) ≠ pyStrip (pyLower str2) →
      substrOf (pyStrip (pyLower str1)) (pyStrip (pyLower str2)) = false →
      substrOf (pyStrip (pyLower str2)) (pyStrip (pyLower str1)) = false →
      calculate_similarity str1 str2 =
        ((((pyStrip (pyLower str1)).data.toFinset ∩ (pyStrip (pyLower str2)).data.toFinset).card : ℚ) /
          (((pyStrip (pyLower str1)).data.toFinset ∪ (pyStrip (pyLower str2)).data.toFinset).card : ℚ))
          * (1 / 2) +
        ((((splitOnChar '_' (pyStrip (pyLower str1)).data).toFinset ∩
            (splitOnChar '_' (pyStrip (pyLower str2)).data).toFinset).card : ℚ) /
          (((splitOnChar '_' (pyStrip (pyLower str1)).data).toFinset ∪
            (splitOnChar '_' (pyStrip (pyLower str2)).data).toFinset).card : ℚ))
          * (1 / 2)) ∧
    0 ≤ calculate_similarity str1 str2 ∧ calculate_similarity str1 str2 ≤ 1 := by
  have hhalf : (mkRat 1 2 : ℚ) = 1 / 2 := by
    rw [Rat.mkRat_eq_div]
    norm_num
  have hcase3 : pyStrip (pyLower str1) ≠ pyStrip (pyLower str2) →
      substrOf (pyStrip (pyLower str1)) (pyStrip (pyLower str2)) = false →
      substrOf (pyStrip (pyLower str2)) (pyStrip (pyLower str1)) = false →
      calculate_similarity str1 str2 =
        ((((pyStrip (pyLower str1)).data.toFinset ∩ (pyStrip (pyLower str2)).data.toFinset).card : ℚ) /
          (((pyStrip (pyLower str1)).data.toFinset ∪ (pyStrip (pyLower str2)).data.toFinset).card : ℚ))
          * (1 / 2) +
        ((((splitOnChar '_' (pyStrip (pyLower str1)).data).toFinset ∩
            (splitOnChar '_' (pyStrip (pyLower str2)).data).toFinset).card : ℚ) /
          (((splitOnChar '_' (pyStrip (pyLower str1)).data).toFinset ∪
            (splitOnChar '_' (pyStrip (pyLower str2)).data).toFinset).card : ℚ))
          * (1 / 2) := by
    intro hne h1 h2
    rw [calculate_similarity_def, if_neg hne, if_neg (by simp [h1, h2])]
    have hw : ((splitOnChar '_' (pyStrip (pyLower str1)).data).toFinset ∪
        (splitOnChar '_' (pyStrip (pyLower str2)).data).toFinset).card ≠ 0 := by
      intro hz
      rw [Finset.card_eq_zero, Finset.union_eq_empty] at hz
      exact splitOnChar_ne_nil '_' (pyStrip (pyLower str1)).data
        ((List.toFinset_eq_empty_iff _).mp hz.1)
    by_cases hc : ((pyStrip (pyLower str1)).data.toFinset ∪
        (pyStrip (pyLower str2)).data.toFinset).card = 0
    · rw [if_pos hc, if_neg hw]
      rw [Finset.card_eq_zero, Finset.union_eq_empty] at hc
      have hi : ((pyStrip (pyLower str1)).data.toFinset ∩
          (pyStrip (pyLower str2)).data.toFinset).card = 0 := by
        rw [Finset.card_eq_zero]
        rw [hc.1]
        simp
      rw [hi, qadd_eq, qmul_eq, qmul_eq, hhalf, mkRat_natCast_div]
      simp
    · rw [if_neg hc, if_neg hw, qadd_eq, qmul_eq, qmul_eq, hhalf, mkRat_natCast_div,
        mkRat_natCast_div]
  refine ⟨?_, ?_, hcase3, ?_⟩
  · intro h
    rw [calculate_similarity_def, if_pos h]
  · intro hne hsub
    rw [calculate_similarity_def, if_neg hne,
      if_pos (by rcases hsub with h | h <;> simp [h]), Rat.mkRat_eq_div]
    norm_num
  · by_cases heq : pyStrip (pyLower str1) = pyStrip (pyLower str2)
    · rw [calculate_similarity_def, if_pos heq]
      norm_num
    · by_cases hsub : (substrOf (pyStrip (pyLower str1)) (pyStrip (pyLower str2)) ||
          substrOf (pyStrip (pyLower str2)) (pyStrip (pyLower str1))) = true
      · rw [calculate_similarity_def, if_neg heq, if_pos hsub, Rat.mkRat_eq_div]
        norm_num
      · simp only [Bool.or_eq_true, not_or, Bool.not_eq_true] at hsub
        rw [hcase3 heq hsub.1 hsub.2]
        have hb1 := div_bounds_aux _ _
          (Finset.card_le_card
            (Finset.inter_subset_union (s := (pyStrip (pyLower str1)).data.toFinset)
              (t := (pyStrip (pyLower str2)).data.toFinset)))
        have hb2 := div_bounds_aux _ _
          (Finset.card_le_card
            (Finset.inter_subset_union
              (s := (splitOnChar '_' (pyStrip (pyLower str1)).data).toFinset)
              (t := (splitOnChar '_' (pyStrip (pyLower str2)).data).toFinset)))
        constructor
        · linarith [hb1.1, hb2.1]
        · linarith [hb1.2, hb2.2]

/-- Witness for C6 at concrete pairs covering all three cases. -/
theorem claim_similarity_blend_witness :
    calculate_similarity "Pt_Name " "pt_name" = 1 ∧
    calculate_similarity "name" "pt_name" = (4 : ℚ) / 5 ∧
    calculate_similarity "a_b" "a_c" = (5 : ℚ) / 12 ∧
    (0 ≤ calculate_similarity "a_b" "a_c" ∧ calculate_similarity "a_b" "a_c" ≤ 1) := by
  have t3 := (claim_similarity_blend "a_b" "a_c").2.2.1 (by decide) (by decide) (by decide)
  have c1 : ((pyStrip (pyLower "a_b")).data.toFinset ∩
      (pyStrip (pyLower "a_c")).data.toFinset).card = 2 := by decide
  have c2 : ((pyStrip (pyLower "a_b")).data.toFinset ∪
      (pyStrip (pyLower "a_c")).data.toFinset).card = 4 := by decide
  have c3 : ((splitOnChar '_' (pyStrip (pyLower "a_b")).data).toFinset ∩
      (splitOnChar '_' (pyStrip (pyLower "a_c")).data).toFinset).card = 1 := by decide
  have c4 : ((splitOnChar '_' (pyStrip (pyLower "a_b")).data).toFinset ∪
      (splitOnChar '_' (pyStrip (pyLower "a_c")).data).toFinset).card = 3 := by decide
  rw [c1, c2, c3, c4] at t3
  refine ⟨(claim_similarity_blend "Pt_Name " "pt_name").1 (by decide),
    (claim_similarity_blend "name" "pt_name").2.1 (by decide) (Or.inl (by decide)),
    ?_, (claim_similarity_blend "a_b" "a_c").2.2.2⟩
  rw [t3]
  norm_num

/-- Membership after a dict update: an element of the updated table is an old
element or the newly written entry. -/
theorem updateSuggestion_mem {e : String × ℚ × String} {c : String} {q : ℚ} {al : String} :
    ∀ {acc : List (String × ℚ × String)},
      e ∈ updateSuggestion c q al acc → e ∈ acc ∨ e = (c, q, al)
  | [], h => by
    simp only [updateSuggestion, List.mem_singleton] at h
    exact Or.inr h
  | f :: rest, h => by
    simp only [updateSuggestion] at h
    split at h
    · rcases List.mem_cons.mp h with h1 | h1
      · split at h1
        · exact Or.inr h1
        · rw [h1]
          exact Or.inl (List.mem_cons_self f rest)
      · exact Or.inl (List.mem_cons_of_mem f h1)
    · rcases List.mem_cons.mp h with h1 | h1
      · rw [h1]
        exact Or.inl (List.mem_cons_self f rest)
      · rcases updateSuggestion_mem h1 with h2 | h2
        · exact Or.inl (List.mem_cons_of_mem f h2)
        · exact Or.inr h2

/-- After a dict update, the written key holds a score at least the written
one. -/
theorem updateSuggestion_upper (c : String) (q : ℚ) (al : String) :
    ∀ (acc : List (String × ℚ × String)),
      ∃ e ∈ updateSuggestion c q al acc, e.1 = c ∧ q ≤ e.2.1
  | [] => ⟨(c, q, al), by simp [updateSuggestion]⟩
  | f :: rest => by
    simp only [updateSuggestion]
    split
    · next hkey =>
      split
      · exact ⟨(c, q, al), List.mem_cons_self _ _, rfl, le_refl q⟩
      · next hlt => exact ⟨f, List.mem_cons_self _ _, hkey, le_of_not_lt hlt⟩
    · obtain ⟨e, hmem, hk, hq⟩ := updateSuggestion_upper c q al rest
      exact ⟨e, List.mem_cons_of_mem f hmem, hk, hq⟩

/-- A dict update never lowers the recorded score of any key. -/
theorem updateSuggestion_mono (c : String) (q : ℚ) (al : String)
    {e : String × ℚ × String} :
    ∀ {acc : List (String × ℚ × String)}, e ∈ acc →
      ∃ e2 ∈ updateSuggestion c q al acc, e2.1 = e.1 ∧ e.2.1 ≤ e2.2.1
  | [], h => absurd h (List.not_mem_nil e)
  | f :: rest, h => by
    simp only [updateSuggestion]
    rcases List.mem_cons.mp h with h1 | h1
    · subst h1
      split
      · next hkey =>
        split
        · next hlt => exact ⟨(c, q, al), List.mem_cons_self _ _, hkey.symm, le_of_lt hlt⟩
        · exact ⟨e, List.mem_cons_self _ _, rfl, le_refl _⟩
      · exact ⟨e, List.mem_cons_self _ _, rfl, le_refl _⟩
    · split
      · exact ⟨e, List.mem_cons_of_mem _ h1, rfl, le_refl _⟩
      · obtain ⟨e2, hmem, hk, hq⟩ := updateSuggestion_mono c q al h1
        exact ⟨e2, List.mem_cons_of_mem _ hmem, hk, hq⟩

/-- Folding dict updates never lowers the recorded score of a key already
present. -/
theorem suggestFold_mono (n : String) :
    ∀ (l : List (String × String)) (acc : List (String × ℚ × String))
      (e : String × ℚ × String), e ∈ acc →
      ∃ e2 ∈ l.foldl
        (fun acc p => updateSuggestion p.2 (calculate_similarity n p.1) p.1 acc) acc,
        e2.1 = e.1 ∧ e.2.1 ≤ e2.2.1
  | [], acc, e, h => ⟨e, h, rfl, le_refl _⟩
  | p :: rest, acc, e, h => by
    obtain ⟨e1, hmem1, hk1, hq1⟩ :=
      updateSuggestion_mono p.2 (calculate_similarity n p.1) p.1 h
    obtain ⟨e2, hmem2, hk2, hq2⟩ := suggestFold_mono n rest _ e1 hmem1
    exact ⟨e2, hmem2, hk2.trans hk1, hq1.trans hq2⟩

/-- After the fold, every processed alias has an entry for its canonical
field scoring at least that alias's similarity. -/
theorem suggestFold_upper (n : String) :
    ∀ (l : List (String × String)) (acc : List (String × ℚ × String))
      (p : String × String), p ∈ l →
      ∃ e ∈ l.foldl
        (fun acc p => updateSuggestion p.2 (calculate_similarity n p.1) p.1 acc) acc,
        e.1 = p.2 ∧ calculate_similarity n p.1 ≤ e.2.1
  | [], _, p, h => absurd h (List.not_mem_nil p)
  | q :: rest, acc, p, h => by
    rcases List.mem_cons.mp h with h1 | h1
    · subst h1
      obtain ⟨e1, hmem1, hk1, hq1⟩ :=
        updateSuggestion_upper p.2 (calculate_similarity n p.1) p.1 acc
      obtain ⟨e2, hmem2, hk2, hq2⟩ := suggestFold_mono n rest _ e1 hmem1
      exact ⟨e2, hmem2, hk2.trans hk1, hq1.trans hq2⟩
    · exact suggestFold_upper n rest _ p h1

/-- Every entry of the fold either came from the accumulator or records the
similarity of one processed alias for its canonical field. -/
theorem suggestFold_sound (n : String) :
    ∀ (l : List (String × String)) (acc : List (String × ℚ × String))
      (e : String × ℚ × String),
      e ∈ l.foldl
        (fun acc p => updateSuggestion p.2 (calculate_similarity n p.1) p.1 acc) acc →
      e ∈ acc ∨ ∃ p, p ∈ l ∧ e = (p.2, calculate_similarity n p.1, p.1)
  | [], _, e, h => Or.inl h
  | q :: rest, acc, e, h => by
    rcases suggestFold_sound n rest _ e h with h1 | ⟨p, hp, he⟩
    · rcases updateSuggestion_mem h1 with h2 | h2
      · exact Or.inl h2
      · exact Or.inr ⟨q, List.mem_cons_self q rest, h2⟩
    · exact Or.inr ⟨p, List.mem_cons_of_mem q hp, he⟩

/-- Membership through stable descending insertion. -/
theorem insertDesc_mem {e x : String × ℚ × String} :
    ∀ {l : List (String × ℚ × String)}, e ∈ insertDesc x l ↔ e = x ∨ e ∈ l
  | [] => by simp [insertDesc]
  | y :: ys => by
    simp only [insertDesc]
    split
    · simp [List.mem_cons]
    · rw [List.mem_cons, insertDesc_mem (l := ys), List.mem_cons]
      tauto

/-- Membership through the stable descending sort. -/
theorem sortDesc_mem {e : String × ℚ × String} :
    ∀ {l : List (String × ℚ × String)}, e ∈ sortDesc l ↔ e ∈ l
  | [] => Iff.rfl
  | x :: xs => by
    simp only [sortDesc]
    rw [insertDesc_mem, sortDesc_mem (l := xs), List.mem_cons]

/-- Stable descending insertion preserves descending pairwise order. -/
theorem insertDesc_pairwise {x : String × ℚ × String} :
    ∀ {l : List (String × ℚ × String)},
      l.Pairwise (fun a b => b.2.1 ≤ a.2.1) →
      (insertDesc x l).Pairwise (fun a b => b.2.1 ≤ a.2.1)
  | [], _ => by simp [insertDesc]
  | y :: ys, h => by
    simp only [insertDesc]
    obtain ⟨hhead, htail⟩ := List.pairwise_cons.mp h
    split
    · next hle =>
      refine List.pairwise_cons.mpr ⟨?_, h⟩
      intro e he
      rcases List.mem_cons.mp he with rfl | he2
      · exact hle
      · exact (hhead e he2).trans hle
    · next hgt =>
      refine List.pairwise_cons.mpr ⟨?_, insertDesc_pairwise htail⟩
      intro e he
      rcases insertDesc_mem.mp he with rfl | he2
      · exact le_of_not_le hgt
      · exact hhead e he2

/-- The stable descending sort is pairwise descending. -/
theorem sortDesc_pairwise :
    ∀ (l : List (String × ℚ × String)),
      (sortDesc l).Pairwise (fun a b => b.2.1 ≤ a.2.1)
  | [] => List.Pairwise.nil
  | x :: xs => insertDesc_pairwise (sortDesc_pairwise xs)

/-- Unfolding of `suggest_canonical_field` on a non-empty column name. -/
theorem suggest_canonical_field_def (col : String) (h : col ≠ "") :
    suggest_canonical_field col =
      (match sortDesc (suggestionTable (columnNormalize col)) with
        | [] => (none, 0, [])
        | best :: rest =>
          (some best.1, best.2.1,
            ((best :: rest).take 3).filter (fun e => e.1 ≠ best.1))) := by
  unfold suggest_canonical_field
  rw [if_neg h]

/-- A dict update never produces an empty table. -/
theorem updateSuggestion_ne_nil (c : String) (q : ℚ) (al : String) :
    ∀ (acc : List (String × ℚ × String)), updateSuggestion c q al acc ≠ []
  | [] => by simp [updateSuggestion]
  | f :: rest => by
    simp only [updateSuggestion]
    split <;> simp

/-- The suggestion fold keeps a table non-empty (or makes it so). -/
theorem suggestFold_ne_nil (n : String) :
    ∀ (l : List (String × String)) (acc : List (String × ℚ × String)),
      (l ≠ [] ∨ acc ≠ []) →
      l.foldl (fun acc p => updateSuggestion p.2 (calculate_similarity n p.1) p.1 acc) acc ≠ []
  | [], acc, h => by
    rcases h with h | h
    · exact absurd rfl h
    · exact h
  | p :: rest, acc, _ =>
    suggestFold_ne_nil n rest _ (Or.inr (updateSuggestion_ne_nil _ _ _ acc))

/-- The alias table is non-empty, so the suggestion table is. -/
theorem suggestionTable_ne_nil (n : String) : suggestionTable n ≠ [] :=
  suggestFold_ne_nil n FIELD_MAPPING [] (Or.inl (by decide))

/-- Stable descending insertion never yields the empty list. -/
theorem insertDesc_ne_nil (x : String × ℚ × String) :
    ∀ (l : List (String × ℚ × String)), insertDesc x l ≠ []
  | [] => by simp [insertDesc]
  | y :: ys => by
    simp only [insertDesc]
    split <;> simp

/-- The stable descending sort of a non-empty list is non-empty. -/
theorem sortDesc_ne_nil :
    ∀ (l : List (String × ℚ × String)), l ≠ [] → sortDesc l ≠ []
  | [], h => absurd rfl h
  | x :: xs, _ => insertDesc_ne_nil x (sortDesc xs)

/-- If some underscore-word of the first string is not a word of the second,
the similarity score is strictly below 1: the equal branch is excluded, the
substring branch yields 0.8, and in the blend the word-set Jaccard overlap is
strictly below 1 while the character part is at most 1. -/
theorem calculate_similarity_lt_one (str1 str2 : String) (w : List Char)
    (h1 : w ∈ splitOnChar '_' (pyStrip (pyLower str1)).data)
    (h2 : w ∉ splitOnChar '_' (pyStrip (pyLower str2)).data) :
    calculate_similarity str1 str2 < 1 := by
  have hne : pyStrip (pyLower str1) ≠ pyStrip (pyLower str2) := by
    intro he
    rw [he] at h1
    exact h2 h1
  rw [calculate_similarity_def, if_neg hne]
  split
  · rw [Rat.mkRat_eq_div]
    norm_num
  · have hwmem : w ∈ (splitOnChar '_' (pyStrip (pyLower str1)).data).toFinset ∪
        (splitOnChar '_' (pyStrip (pyLower str2)).data).toFinset := by
      rw [Finset.mem_union]
      exact Or.inl (List.mem_toFinset.mpr h1)
    have hssub : ((splitOnChar '_' (pyStrip (pyLower str1)).data).toFinset ∩
        (splitOnChar '_' (pyStrip (pyLower str2)).data).toFinset) ⊂
        ((splitOnChar '_' (pyStrip (pyLower str1)).data).toFinset ∪
        (splitOnChar '_' (pyStrip (pyLower str2)).data).toFinset) := by
      refine Finset.ssubset_iff_of_subset (Finset.inter_subset_union) |>.mpr ?_
      refine ⟨w, hwmem, ?_⟩
      rw [Finset.mem_inter]
      intro hc
      exact h2 (List.mem_toFinset.mp hc.2)
    have hcardlt := Finset.card_lt_card hssub
    have hupos : 0 < ((splitOnChar '_' (pyStrip (pyLower str1)).data).toFinset ∪
        (splitOnChar '_' (pyStrip (pyLower str2)).data).toFinset).card :=
      Finset.card_pos.mpr ⟨w, hwmem⟩
    have hwordlt : (mkRat (((splitOnChar '_' (pyStrip (pyLower str1)).data).toFinset ∩
        (splitOnChar '_' (pyStrip (pyLower str2)).data).toFinset).card)
        (((splitOnChar '_' (pyStrip (pyLower str1)).data).toFinset ∪
        (splitOnChar '_' (pyStrip (pyLower str2)).data).toFinset).card) : ℚ) < 1 := by
      rw [mkRat_natCast_div, div_lt_one (by exact_mod_cast hupos)]
      exact_mod_cast hcardlt
    have hcharb : 0 ≤ (if ((pyStrip (pyLower str1)).data.toFinset ∪
          (pyStrip (pyLower str2)).data.toFinset).card = 0 then (0 : ℚ)
        else mkRat (((pyStrip (pyLower str1)).data.toFinset ∩
          (pyStrip (pyLower str2)).data.toFinset).card)
          (((pyStrip (pyLower str1)).data.toFinset ∪
          (pyStrip (pyLower str2)).data.toFinset).card)) ∧
        (if ((pyStrip (pyLower str1)).data.toFinset ∪
          (pyStrip (pyLower str2)).data.toFinset).card = 0 then (0 : ℚ)
        else mkRat (((pyStrip (pyLower str1)).data.toFinset ∩
          (pyStrip (pyLower str2)).data.toFinset).card)
          (((pyStrip (pyLower str1)).data.toFinset ∪
          (pyStrip (pyLower str2)).data.toFinset).card)) ≤ 1 := by
      split
      · norm_num
      · exact mkRat_natCast_bounds _ _
          (Finset.card_le_card (Finset.inter_subset_union
            (s := (pyStrip (pyLower str1)).data.toFinset)
            (t := (pyStrip (pyLower str2)).data.toFinset)))
    rw [if_neg (Nat.pos_iff_ne_zero.mp hupos), qadd_eq, qmul_eq, qmul_eq]
    have hhalf : (mkRat 1 2 : ℚ) = 1 / 2 := by
      rw [Rat.mkRat_eq_div]
      norm_num
    rw [hhalf]
    obtain ⟨hc0, hc1⟩ := hcharb
    nlinarith [hwordlt, hc0, hc1]

set_option maxHeartbeats 4000000

/-- No alias of the table has `guardian` as an underscore-delimited word
(checked by scanning the table), while the normalized header
`guardian_contact` does. -/
theorem guardian_word_scan :
    FIELD_MAPPING.all (fun p =>
      !((splitOnChar '_' (pyStrip (pyLower p.1)).data).any
        (fun seg => seg == "guardian".data))) = true ∧
    "guardian".data ∈ splitOnChar '_' (pyStrip (pyLower (columnNormalize "guardian_contact"))).data ∧
    FIELD_MAPPING.all (fun p => !(p.2 == "")) = true := by
  refine ⟨by decide, by decide, by decide⟩

/-- Every alias scores strictly below 1 against `guardian_contact`, and every
canonical field name of the table is non-empty. -/
theorem guardian_sim_lt_one :
    (∀ p ∈ FIELD_MAPPING,
      calculate_similarity (columnNormalize "guardian_contact") p.1 < 1) ∧
    (∀ p ∈ FIELD_MAPPING, (p : String × String).2 ≠ "") := by
  obtain ⟨hscan, hG1, hvals⟩ := guardian_word_scan
  constructor
  · intro p hp
    refine calculate_similarity_lt_one _ _ ("guardian".data) hG1 ?_
    intro hmem2
    have hall := List.all_eq_true.mp hscan p hp
    rw [Bool.not_eq_true'] at hall
    have hany : (splitOnChar '_' (pyStrip (pyLower p.1)).data).any
        (fun seg => seg == "guardian".data) = true :=
      List.any_eq_true.mpr ⟨_, hmem2, by simp⟩
    rw [hall] at hany
    exact Bool.false_ne_true hany
  · intro p hp he
    have hall := List.all_eq_true.mp hvals p hp
    rw [Bool.not_eq_true'] at hall
    rw [he] at hall
    simp at hall


/-- The best suggestion is the canonical field of a highest-scoring alias,
and the alternatives are drawn from the top three, excluding the best. -/
theorem suggest_best_argmax :
    ∀ (col best : String) (conf : ℚ) (alts : List (String × ℚ × String)),
      col ≠ "" →
      suggest_canonical_field col = (some best, conf, alts) →
      (∃ al, (al, best) ∈ FIELD_MAPPING ∧
        conf = calculate_similarity (columnNormalize col) al) ∧
      (∀ p ∈ FIELD_MAPPING, calculate_similarity (columnNormalize col) p.1 ≤ conf) ∧
      alts.length ≤ 3 ∧
      (∀ a ∈ alts, a.1 ≠ best ∧ a.2.1 ≤ conf) := by
    intro col best conf alts hne hs
    rw [suggest_canonical_field_def col hne] at hs
    rcases hsort : sortDesc (suggestionTable (columnNormalize col)) with - | ⟨b, rest⟩
    · rw [hsort] at hs
      simp at hs
    · rw [hsort] at hs
      simp only [Prod.mk.injEq, Option.some.injEq] at hs
      obtain ⟨hb, hc, ha⟩ := hs
      have hsorted := sortDesc_pairwise (suggestionTable (columnNormalize col))
      rw [hsort] at hsorted
      obtain ⟨hhead, -⟩ := List.pairwise_cons.mp hsorted
      have hbmem : b ∈ suggestionTable (columnNormalize col) := by
        have hmem : b ∈ sortDesc (suggestionTable (columnNormalize col)) := by
          rw [hsort]
          exact List.mem_cons_self b rest
        exact sortDesc_mem.mp hmem
      constructor
      · rcases suggestFold_sound (columnNormalize col) FIELD_MAPPING [] b hbmem with
          h0 | ⟨p, hp, he⟩
        · exact absurd h0 (List.not_mem_nil b)
        · refine ⟨p.1, ?_, ?_⟩
          · rw [← hb, he]
            exact hp
          · rw [← hc, he]
      constructor
      · intro p hp
        obtain ⟨e, hemem, hek, heq⟩ :=
          suggestFold_upper (columnNormalize col) FIELD_MAPPING [] p hp
        have hmem2 : e ∈ sortDesc (suggestionTable (columnNormalize col)) :=
          sortDesc_mem.mpr hemem
        rw [hsort] at hmem2
        rcases List.mem_cons.mp hmem2 with rfl | hrest
        · rw [← hc]
          exact heq
        · rw [← hc]
          exact heq.trans (hhead e hrest)
      constructor
      · rw [← ha]
        exact (List.length_filter_le _ _).trans (List.length_take_le _ _)
      · intro a hamem
        rw [← ha] at hamem
        obtain ⟨htake, hpred⟩ := List.mem_filter.mp hamem
        have hane : a.1 ≠ b.1 := by
          simpa using hpred
        have hal : a ∈ b :: rest := (List.take_sublist 3 (b :: rest)).mem htake
        constructor
        · rw [← hb]
          exact hane
        · rcases List.mem_cons.mp hal with rfl | hrest
          · rw [← hc]
          · rw [← hc]
            exact hhead a hrest

/-- The concrete guardian-contact suggestion: non-empty, confidence at least
11/28, all scores below 1, best field name non-empty. -/
theorem guardian_concrete :
    ∃ best conf alts,
      suggest_canonical_field "guardian_contact" = (some best, conf, alts) ∧
      mkRat 11 28 ≤ conf ∧ conf < 1 ∧ (∀ a ∈ alts, a.2.1 < 1) ∧ best ≠ "" := by
    obtain ⟨hlt1, hvals⟩ := guardian_sim_lt_one
    rcases hsort : sortDesc (suggestionTable (columnNormalize "guardian_contact")) with
      - | ⟨b, rest⟩
    · exact absurd hsort (sortDesc_ne_nil _ (suggestionTable_ne_nil _))
    · have hs : suggest_canonical_field "guardian_contact" =
          (some b.1, b.2.1, ((b :: rest).take 3).filter (fun e => e.1 ≠ b.1)) := by
        rw [suggest_canonical_field_def _ (by decide), hsort]
      have hsorted := sortDesc_pairwise (suggestionTable (columnNormalize "guardian_contact"))
      rw [hsort] at hsorted
      obtain ⟨hhead, -⟩ := List.pairwise_cons.mp hsorted
      have htable_lt : ∀ e ∈ suggestionTable (columnNormalize "guardian_contact"),
          e.2.1 < 1 ∧ e.1 ≠ "" := by
        intro e hemem
        rcases suggestFold_sound (columnNormalize "guardian_contact") FIELD_MAPPING [] e hemem
          with h0 | ⟨p, hp, he⟩
        · exact absurd h0 (List.not_mem_nil e)
        · constructor
          · rw [he]
            exact hlt1 p hp
          · rw [he]
            exact hvals p hp
      have hbmem : b ∈ suggestionTable (columnNormalize "guardian_contact") := by
        have hmem : b ∈ sortDesc (suggestionTable (columnNormalize "guardian_contact")) := by
          rw [hsort]
          exact List.mem_cons_self b rest
        exact sortDesc_mem.mp hmem
      have hlow : mkRat 11 28 ≤ b.2.1 := by
        obtain ⟨e, hemem, hek, heq⟩ :=
          suggestFold_upper (columnNormalize "guardian_contact") FIELD_MAPPING []
            ("regulatory_notice_id", "Notice_ID") (by decide)
        have hsim : calculate_similarity (columnNormalize "guardian_contact")
            "regulatory_notice_id" = mkRat 11 28 := by decide
        rw [hsim] at heq
        have hmem2 : e ∈ sortDesc (suggestionTable (columnNormalize "guardian_contact")) :=
          sortDesc_mem.mpr hemem
        rw [hsort] at hmem2
        rcases List.mem_cons.mp hmem2 with rfl | hrest
        · exact heq
        · exact heq.trans (hhead e hrest)
      refine ⟨b.1, b.2.1, _, hs, hlow, (htable_lt b hbmem).1, ?_, (htable_lt b hbmem).2⟩
      intro a hamem
      obtain ⟨htake, -⟩ := List.mem_filter.mp hamem
      have hal : a ∈ b :: rest := (List.take_sublist 3 (b :: rest)).mem htake
      have hamem2 : a ∈ suggestionTable (columnNormalize "guardian_contact") := by
        apply sortDesc_mem.mp
        rw [hsort]
        exact hal
      exact (htable_lt a hamem2).1

/-- C7: an unknown column is offered a canonical-field mapping only when a
suggestion exists and its confidence exceeds the 0.3 gate; the suggested
field is the canonical field of the highest-scoring alias of the table
(witnessed by one of its aliases, and bounding the similarity of every
alias); the alternative suggestions are at most the top three ranked entries,
exclude the best field and never outscore it; and for the unknown header
`"guardian_contact"` the normalizer yields a suggestion (with confidence at
least 11/28, the score of the alias `regulatory_notice_id`, which clears the
0.3 gate), and neither it nor any alternative scores 1. -/
theorem claim_suggestion_threshold :
    (∀ col : String, has_confident_suggestion col = true →
      ∃ best conf alts, suggest_canonical_field col = (some best, conf, alts) ∧
        conf > mkRat 3 10) ∧
    (∀ (col best : String) (conf : ℚ) (alts : List (String × ℚ × String)),
      col ≠ "" →
      suggest_canonical_field col = (some best, conf, alts) →
      (∃ al, (al, best) ∈ FIELD_MAPPING ∧
        conf = calculate_similarity (columnNormalize col) al) ∧
      (∀ p ∈ FIELD_MAPPING, calculate_similarity (columnNormalize col) p.1 ≤ conf) ∧
      alts.length ≤ 3 ∧
      (∀ a ∈ alts, a.1 ≠ best ∧ a.2.1 ≤ conf)) ∧
    (∃ best conf alts,
      suggest_canonical_field "guardian_contact" = (some best, conf, alts) ∧
      mkRat 11 28 ≤ conf ∧ mkRat 3 10 < conf ∧ conf < 1 ∧
      (∀ a ∈ alts, a.2.1 < 1)) := by
  obtain ⟨best, conf, alts, hs, hlow, hhi, halts, -⟩ := guardian_concrete
  refine ⟨?_, suggest_best_argmax,
    best, conf, alts, hs, hlow, lt_of_lt_of_le (by decide) hlow, hhi, halts⟩
  intro col h
  unfold has_confident_suggestion at h
  rcases hs2 : suggest_canonical_field col with ⟨o, conf2, alts2⟩
  rw [hs2] at h
  cases o with
  | none => simp at h
  | some f =>
    simp only [Bool.and_eq_true, decide_eq_true_iff] at h
    exact ⟨f, conf2, alts2, rfl, h.2⟩

/-- Witness for C7 at the concrete header `"guardian_contact"`: the theorem's
concrete and argmax components applied there, with every hypothesis
discharged. -/
theorem claim_suggestion_threshold_witness :
    ∃ best conf alts,
      suggest_canonical_field "guardian_contact" = (some best, conf, alts) ∧
      mkRat 11 28 ≤ conf ∧ mkRat 3 10 < conf ∧ conf < 1 ∧
      (∀ a ∈ alts, a.2.1 < 1) ∧
      (∃ al, (al, best) ∈ FIELD_MAPPING ∧
        conf = calculate_similarity (columnNormalize "guardian_contact") al) ∧
      (∀ p ∈ FIELD_MAPPING,
        calculate_similarity (columnNormalize "guardian_contact") p.1 ≤ conf) := by
  obtain ⟨-, hmax, hconc⟩ := claim_suggestion_threshold
  obtain ⟨best, conf, alts, hs, hlow, hgt, hhi, halts⟩ := hconc
  obtain ⟨hex, hbound, -, -⟩ := hmax "guardian_contact" best conf alts (by decide) hs
  exact ⟨best, conf, alts, hs, hlow, hgt, hhi, halts, hex, hbound⟩
